import Mathlib

/-!
Verification of the posting/ledger engine of a bullion-trading back office
(`MetalTransactionService.js`, `TransactionFixing` service).

The JavaScript source is shallowly embedded: JS numbers are modelled as
`JNum` (a rational or `NaN`), possibly-absent object fields as
`Option JNum` (`none` = `undefined`), and every arithmetic or logical
operator that the source applies to such values is given its JavaScript
semantics (`undefined` coerces to `NaN` under `+`, `NaN` and `0` are
falsy under `||`, `NaN` compares false under `<`/`>`/`<=`, `x !== 0`
is true for `NaN`).  Stateful flows (delete, cancel) are embedded as
explicit state transformers over a database state; MongoDB session
semantics are modelled by distinguishing effects that join the session
(rolled back on abort) from effects executed outside it (persist).
-/

/-- A JavaScript number: either an actual (rational) value or `NaN`. -/
inductive JNum where
  | nan : JNum
  | num : ℚ → JNum
deriving DecidableEq, Repr

namespace JNum

/-- JS `+` on numbers: `NaN` is absorbing. -/
def add : JNum → JNum → JNum
  | .num a, .num b => .num (a + b)
  | _, _ => .nan

/-- JS unary minus: `-NaN = NaN`. -/
def neg : JNum → JNum
  | .num a => .num (-a)
  | .nan => .nan

/-- JS binary subtraction. -/
def sub (a b : JNum) : JNum := a.add b.neg

/-- JS truthiness of a number: `0` and `NaN` are falsy. -/
def truthy : JNum → Bool
  | .num q => decide (q ≠ 0)
  | .nan => false

/-- JS `a > b`: any comparison with `NaN` is false. -/
def jgt : JNum → JNum → Bool
  | .num a, .num b => decide (b < a)
  | _, _ => false

/-- JS `a < b`: any comparison with `NaN` is false. -/
def jlt : JNum → JNum → Bool
  | .num a, .num b => decide (a < b)
  | _, _ => false

/-- JS `a <= b`: any comparison with `NaN` is false. -/
def jle : JNum → JNum → Bool
  | .num a, .num b => decide (a ≤ b)
  | _, _ => false

/-- JS `Math.abs`. -/
def jabs : JNum → JNum
  | .num a => .num |a|
  | .nan => .nan

/-- JS `a || b` restricted to numbers: yields `b` when `a` is `0` or `NaN`. -/
def orJS (a b : JNum) : JNum := if a.truthy then a else b

/-- JS strict inequality test `a !== 0` (true for `NaN`). -/
def ne0 (a : JNum) : Bool := decide (a ≠ JNum.num 0)

/-- JS `acc + v` where `v` may be `undefined`: `x + undefined` is `NaN`. -/
def addOpt (a : JNum) : Option JNum → JNum
  | some v => a.add v
  | none => .nan

end JNum

/-- JS `o || d` where `o` may be `undefined` (absent field). -/
def jsOr (o : Option JNum) (d : JNum) : JNum :=
  match o with
  | some v => if v.truthy then v else d
  | none => d

/-- Rounding of a rational to 2 decimal places, half away from zero, as
`parseFloat(x.toFixed(2))` does on the magnitudes this code handles. -/
def round2q (q : ℚ) : ℚ :=
  if 0 ≤ q then (⌊q * 100 + 1 / 2⌋ : ℚ) / 100 else -((⌊-q * 100 + 1 / 2⌋ : ℚ) / 100)

/-- JS `parseFloat(x.toFixed(2))`: `NaN` stays `NaN`. -/
def JNum.toFixed2 : JNum → JNum
  | .num q => .num (round2q q)
  | .nan => .nan

/-- One stock item, holding exactly the values the service reads off the
document (optional chains such as `item.vat?.amount` become `Option JNum`). -/
structure StockItem where
  /-- Function `item.itemTotal?.makingChargesTotal` -/
  makingChargesTotal : Option JNum := none
  /-- Function `item.makingCharges?.amount` -/
  makingChargesAmount : Option JNum := none
  /-- Function `item.itemTotal?.premiumTotal` -/
  premiumTotal : Option JNum := none
  /-- Function `item.premium?.amount` -/
  premiumAmount : Option JNum := none
  /-- Function `item.vat?.amount` -/
  vatAmount : Option JNum := none
  /-- Function `item.otherCharges?.amount` -/
  otherChargesAmount : Option JNum := none
  /-- Function `item.itemTotal?.baseAmount` -/
  baseAmount : Option JNum := none
  /-- Function `item.pureWeight` -/
  pureWeight : Option JNum := none
  /-- Function `item.purity` -/
  purity : Option JNum := none
  /-- Function `item.grossWeight` -/
  grossWeight : Option JNum := none
  /-- Function `item.metalRateRequirements?.rate` -/
  metalRate : Option JNum := none
  /-- Function `item.otherCharges.description` -/
  otherChargesDescription : String := ""
deriving DecidableEq, Repr

/-- The `totalAmountSession` aggregate of a transaction. -/
structure TotalSession where
  /-- Function `totalAmountSession?.totalAmountAED` -/
  totalAmountAED : Option JNum := none
deriving DecidableEq, Repr

/-- The totals record produced by `calculateTotals`. -/
structure Totals where
  makingCharges : JNum := .num 0
  premium : JNum := .num 0
  discount : JNum := .num 0
  goldValue : JNum := .num 0
  pureWeight : JNum := .num 0
  grossWeight : JNum := .num 0
  purity : JNum := .num 0
  vatAmount : JNum := .num 0
  otherChargesAmount : JNum := .num 0
  goldBidValue : JNum := .num 0
  totalAmount : JNum := .num 0
deriving DecidableEq, Repr

/-- One reduction step of `calculateTotals` over a stock item. -/
def calculateTotalsStep (acc : Totals) (item : StockItem) : Totals :=
  let makingChargesAmount := jsOr item.makingChargesTotal (jsOr item.makingChargesAmount (.num 0))
  let premiumDiscountAmount := jsOr item.premiumTotal (jsOr item.premiumAmount (.num 0))
  let vatAmount := item.vatAmount
  let otherChargesAmount := item.otherChargesAmount
  let goldValue := jsOr item.baseAmount (.num 0)
  let pureWeight := jsOr item.pureWeight (.num 0)
  let purity := jsOr item.purity (.num 0)
  let grossWeight := jsOr item.grossWeight (.num 0)
  let premium := if premiumDiscountAmount.jgt (.num 0) then premiumDiscountAmount else .num 0
  let discount := if premiumDiscountAmount.jlt (.num 0) then premiumDiscountAmount.jabs else .num 0
  { makingCharges := acc.makingCharges.add makingChargesAmount
    premium := acc.premium.add premium
    vatAmount := acc.vatAmount.addOpt vatAmount
    otherChargesAmount := acc.otherChargesAmount.addOpt otherChargesAmount
    discount := acc.discount.add discount
    goldValue := acc.goldValue.add goldValue
    pureWeight := acc.pureWeight.add pureWeight
    grossWeight := acc.grossWeight.add grossWeight
    purity := acc.purity.add purity
    goldBidValue := acc.goldBidValue.orJS (jsOr item.metalRate (.num 0))
    totalAmount := acc.totalAmount }

/-- Function `calculateTotals(stockItems, totalAmountSession)`: reduce the items,
then take `totalAmount` directly from the session (`|| 0`). -/
def calculateTotals (stockItems : List StockItem) (totalAmountSession : TotalSession) : Totals :=
  let totals := stockItems.foldl calculateTotalsStep {}
  { totals with totalAmount := jsOr totalAmountSession.totalAmountAED (.num 0) }

/-- Transaction kind (`transactionType`). -/
inductive TransactionType where
  | purchase | sale | purchaseReturn | saleReturn
deriving DecidableEq, Repr

/-- Transaction mode as resolved by `getTransactionMode`. -/
inductive Mode where
  | fix | unfix
deriving DecidableEq, Repr

/-- Function `getTransactionMode(fixed, unfix)`: the source's if/else cascade,
including the final `return "fix"` fallthrough reached when both flags are set. -/
def getTransactionMode (fixed unfix : Bool) : Mode :=
  if fixed && !unfix then .fix
  else if unfix && !fixed then .unfix
  else if !fixed && !unfix then .unfix
  else .fix

/-- The signed balance-change record of `calculateBalanceChanges`. -/
structure BalanceChanges where
  goldBalance : JNum
  goldValue : JNum
  cashBalance : JNum
  premiumBalance : JNum
  discountBalance : JNum
  otherCharges : JNum
deriving DecidableEq, Repr

/-- Function `calculateBalanceChanges(transactionType, mode, totals)`: the 8-entry
(kind × mode) balance matrix. -/
def calculateBalanceChanges (transactionType : TransactionType) (mode : Mode)
    (totals : Totals) : BalanceChanges :=
  match transactionType, mode with
  | .purchase, .unfix =>
    { goldBalance := totals.pureWeight
      goldValue := totals.goldValue
      cashBalance := totals.makingCharges
      premiumBalance := totals.premium
      discountBalance := totals.discount.neg
      otherCharges := totals.otherChargesAmount }
  | .purchase, .fix =>
    { goldBalance := .num 0
      goldValue := .num 0
      cashBalance := totals.totalAmount
      premiumBalance := .num 0
      discountBalance := .num 0
      otherCharges := .num 0 }
  | .sale, .unfix =>
    { goldBalance := totals.pureWeight.neg
      goldValue := totals.goldValue.neg
      cashBalance := totals.makingCharges.neg
      otherCharges := totals.otherChargesAmount.neg
      premiumBalance := totals.premium.neg
      discountBalance := totals.discount }
  | .sale, .fix =>
    { goldBalance := .num 0
      goldValue := .num 0
      cashBalance := totals.totalAmount.neg
      premiumBalance := .num 0
      discountBalance := .num 0
      otherCharges := .num 0 }
  | .purchaseReturn, .unfix =>
    { goldBalance := totals.pureWeight.neg
      goldValue := totals.goldValue.neg
      cashBalance := totals.makingCharges.neg
      otherCharges := totals.otherChargesAmount.neg
      premiumBalance := totals.premium.neg
      discountBalance := totals.discount }
  | .purchaseReturn, .fix =>
    { goldBalance := .num 0
      goldValue := .num 0
      cashBalance := totals.totalAmount.neg
      premiumBalance := .num 0
      discountBalance := .num 0
      otherCharges := .num 0 }
  | .saleReturn, .unfix =>
    { goldBalance := totals.pureWeight
      goldValue := totals.goldValue
      cashBalance := totals.makingCharges
      otherCharges := totals.otherChargesAmount
      premiumBalance := totals.premium
      discountBalance := totals.discount.neg }
  | .saleReturn, .fix =>
    { goldBalance := .num 0
      goldValue := .num 0
      cashBalance := totals.totalAmount
      premiumBalance := .num 0
      discountBalance := .num 0
      otherCharges := .num 0 }

/-- The net cash delta `cashBalance + premiumBalance + discountBalance`
summed in source order (shared by `buildUpdateOperations` and
`updateTradeDebtorsBalances`). -/
def netCashChange (bc : BalanceChanges) : JNum :=
  (bc.cashBalance.add bc.premiumBalance).add bc.discountBalance

/-- The field-level increment operations applied to an account document. -/
structure UpdateOps where
  incGoldGrams : Option JNum := none
  incGoldValue : Option JNum := none
  incCashAmount : Option JNum := none
deriving DecidableEq, Repr

/-- Function `buildUpdateOperations(balanceChanges)`: gold increments when
`goldBalance !== 0`; the net cash delta is applied through
`parseFloat(netCashChange.toFixed(2))` when it is `!== 0`. -/
def buildUpdateOperations (balanceChanges : BalanceChanges) : UpdateOps :=
  let net := netCashChange balanceChanges
  { incGoldGrams := if balanceChanges.goldBalance.ne0 then some balanceChanges.goldBalance else none
    incGoldValue := if balanceChanges.goldBalance.ne0 then some balanceChanges.goldValue else none
    incCashAmount := if net.ne0 then some net.toFixed2 else none }

/-- The increment operations built by `updateTradeDebtorsBalances`:
gold moves when `goldBalance !== 0 || goldValue !== 0`, negated on
reversal; the net cash delta is applied raw (no `toFixed` rounding). -/
def updateTradeDebtorsBalancesOps (balanceChanges : BalanceChanges)
    (isReversal : Bool) : UpdateOps :=
  let net := netCashChange balanceChanges
  let goldCond := balanceChanges.goldBalance.ne0 || balanceChanges.goldValue.ne0
  { incGoldGrams :=
      if goldCond then
        some (if isReversal then balanceChanges.goldBalance.neg else balanceChanges.goldBalance)
      else none
    incGoldValue :=
      if goldCond then
        some (if isReversal then balanceChanges.goldValue.neg else balanceChanges.goldValue)
      else none
    incCashAmount :=
      if net.ne0 then some (if isReversal then net.neg else net) else none }

/-- The cash increment actually added to `balances.cashBalance.amount`
by a set of update operations (`0` when no increment is present). -/
def appliedCashDelta (ops : UpdateOps) : JNum := ops.incCashAmount.getD (.num 0)

/-- The gold-gram increment actually added to `balances.goldBalance.totalGrams`. -/
def appliedGoldDelta (ops : UpdateOps) : JNum := ops.incGoldGrams.getD (.num 0)

/-- A party account document as selected by the service. -/
structure Party where
  id : ℕ
  accountCode : String := ""
  customerName : String := ""
  isActive : Bool := true
deriving DecidableEq, Repr

/-- JS `a || b` on strings: the empty string is falsy. -/
def strOr (a b : String) : String := if a = "" then b else a

/-- A persisted Registry (ledger) posting.  Wall-clock audit fields
(`transactionDate`, `createdAt`) are omitted from the model. -/
structure RegEntry where
  transactionId : String
  metalTransactionId : ℕ
  type : String
  description : String
  party : Option ℕ
  isBullion : Bool
  value : JNum
  credit : JNum
  cashDebit : JNum
  goldCredit : JNum
  cashCredit : JNum
  goldDebit : JNum
  debit : JNum
  goldBidValue : Option JNum
  reference : String
  createdBy : ℕ
  grossWeight : Option JNum
  pureWeight : Option JNum
  purity : Option JNum
deriving DecidableEq, Repr

/-- The destructured options object of `createRegistryEntry`, with the
source's defaults (`0` for the five debit/credit components, `undefined`
for the audit weights). -/
structure EntryOpts where
  cashDebit : JNum := .num 0
  goldCredit : JNum := .num 0
  cashCredit : JNum := .num 0
  goldDebit : JNum := .num 0
  debit : JNum := .num 0
  grossWeight : Option JNum := none
  pureWeight : Option JNum := none
  purity : Option JNum := none
  goldBidValue : Option JNum := none
deriving DecidableEq, Repr

/-- Function `createRegistryEntry(...)`: returns `null` when `value <= 0` unless the
type is one of the two fixing exemptions; numeric components are stored
through `parseFloat(x) || 0`. -/
def createRegistryEntry (baseId : String) (metalTransactionId : ℕ)
    (suffix type description : String) (partyId : Option ℕ) (isBullion : Bool)
    (value credit : JNum) (opts : EntryOpts) (reference : String)
    (adminId : ℕ) : Option RegEntry :=
  if value.jle (.num 0) && !(type == "sales-fixing" || type == "sale-return-fixing") then
    none
  else
    some {
      transactionId := baseId ++ "-" ++ suffix
      metalTransactionId := metalTransactionId
      type := type
      description := description
      party := partyId
      isBullion := isBullion
      value := value.orJS (.num 0)
      credit := credit.orJS (.num 0)
      cashDebit := opts.cashDebit.orJS (.num 0)
      goldCredit := opts.goldCredit.orJS (.num 0)
      cashCredit := opts.cashCredit.orJS (.num 0)
      goldDebit := opts.goldDebit.orJS (.num 0)
      debit := opts.debit.orJS (.num 0)
      goldBidValue := opts.goldBidValue
      reference := reference
      createdBy := adminId
      grossWeight := opts.grossWeight
      pureWeight := opts.pureWeight
      purity := opts.purity }

/-- Function `buildPurchaseFixEntries`: the purchase/fix posting template. -/
def buildPurchaseFixEntries (totals : Totals) (metalTransactionId : ℕ) (party : Party)
    (baseTransactionId : String) (voucherNumber : String) (adminId : ℕ)
    (item : StockItem) : List (Option RegEntry) :=
  let partyName := strOr party.customerName party.accountCode
  let ocd := item.otherChargesDescription
  (if totals.pureWeight.jgt (.num 0) then
    [createRegistryEntry baseTransactionId metalTransactionId "PARTY-GOLD" "purchase-fixing"
      s!"Party gold balance - Purchase from {partyName}" (some party.id) true
      totals.pureWeight totals.pureWeight
      { debit := .num 0, goldCredit := totals.pureWeight, cashDebit := totals.goldValue,
        grossWeight := some totals.grossWeight, goldBidValue := some totals.goldBidValue }
      voucherNumber adminId]
   else []) ++
  (if totals.goldValue.jgt (.num 0) then
    [createRegistryEntry baseTransactionId metalTransactionId "001" "PARTY_CASH_BALANCE"
      s!"Party cash balance - Purchase from {partyName}" (some party.id) false
      totals.goldValue totals.goldValue
      { goldDebit := totals.grossWeight, cashDebit := totals.goldValue,
        grossWeight := some totals.grossWeight, goldBidValue := some totals.goldBidValue }
      voucherNumber adminId]
   else []) ++
  (if totals.makingCharges.jgt (.num 0) then
    [createRegistryEntry baseTransactionId metalTransactionId "002" "MAKING_CHARGES"
      s!"Party making charges - Purchase from {partyName}" (some party.id) false
      totals.makingCharges totals.makingCharges
      { goldDebit := totals.grossWeight, cashDebit := totals.goldValue,
        grossWeight := some totals.grossWeight, goldBidValue := some totals.goldBidValue }
      voucherNumber adminId]
   else []) ++
  (if totals.otherChargesAmount.jgt (.num 0) then
    [createRegistryEntry baseTransactionId metalTransactionId "008" "OTHER_CHARGES"
      s!"{ocd} charges - Purchase from {partyName}" (some party.id) false
      totals.otherChargesAmount totals.otherChargesAmount
      { goldDebit := totals.grossWeight, cashDebit := totals.goldValue,
        grossWeight := some totals.grossWeight, goldBidValue := some totals.goldBidValue }
      voucherNumber adminId]
   else []) ++
  (if totals.vatAmount.jgt (.num 0) then
    [createRegistryEntry baseTransactionId metalTransactionId "009" "VAT_AMOUNT"
      s!"Party Vat amount - Purchase from {partyName}" (some party.id) false
      totals.vatAmount totals.vatAmount
      { goldDebit := totals.grossWeight, cashDebit := totals.goldValue,
        grossWeight := some totals.grossWeight, goldBidValue := some totals.goldBidValue }
      voucherNumber adminId]
   else []) ++
  (if totals.premium.jgt (.num 0) then
    [createRegistryEntry baseTransactionId metalTransactionId "003" "PREMIUM"
      s!"Party premium - Purchase from {partyName}" (some party.id) false
      totals.premium totals.premium
      { goldDebit := totals.grossWeight, cashDebit := totals.goldValue,
        grossWeight := some totals.grossWeight, goldBidValue := some totals.goldBidValue }
      voucherNumber adminId]
   else []) ++
  (if totals.discount.jgt (.num 0) then
    [createRegistryEntry baseTransactionId metalTransactionId "007" "DISCOUNT"
      s!"Party discount - Purchase from {partyName}" (some party.id) false
      totals.discount (.num 0)
      { debit := totals.discount, goldDebit := totals.grossWeight, cashDebit := totals.goldValue,
        grossWeight := some totals.grossWeight, goldBidValue := some totals.goldBidValue }
      voucherNumber adminId]
   else []) ++
  (if totals.pureWeight.jgt (.num 0) then
    [createRegistryEntry baseTransactionId metalTransactionId "004" "GOLD"
      s!"Gold inventory - Purchase from {partyName}" none true
      totals.pureWeight (.num 0)
      { debit := totals.pureWeight, goldDebit := totals.grossWeight, cashDebit := totals.goldValue,
        grossWeight := some totals.grossWeight, pureWeight := some totals.pureWeight,
        purity := some totals.purity, goldBidValue := some totals.goldBidValue }
      voucherNumber adminId]
   else []) ++
  (if totals.grossWeight.jgt (.num 0) then
    [createRegistryEntry baseTransactionId metalTransactionId "005" "GOLD_STOCK"
      s!"Gold stock - Purchase from {partyName}" none true
      totals.grossWeight (.num 0)
      { debit := totals.grossWeight, goldDebit := totals.grossWeight, cashDebit := totals.goldValue,
        grossWeight := some totals.grossWeight, pureWeight := some totals.pureWeight,
        purity := some totals.purity, goldBidValue := some totals.goldBidValue }
      voucherNumber adminId]
   else [])

/-- Function `buildPurchaseUnfixEntries`: the purchase/unfix posting template. -/
def buildPurchaseUnfixEntries (totals : Totals) (metalTransactionId : ℕ) (party : Party)
    (baseTransactionId : String) (voucherNumber : String) (adminId : ℕ)
    (item : StockItem) : List (Option RegEntry) :=
  let partyName := strOr party.customerName party.accountCode
  let ocd := item.otherChargesDescription
  (if totals.pureWeight.jgt (.num 0) then
    [createRegistryEntry baseTransactionId metalTransactionId "001" "PARTY_GOLD_BALANCE"
      s!"Party gold balance - Unfix purchase from {partyName}" (some party.id) false
      totals.pureWeight totals.pureWeight
      { debit := .num 0, grossWeight := some totals.grossWeight,
        goldBidValue := some totals.goldBidValue }
      voucherNumber adminId]
   else []) ++
  (if totals.makingCharges.jgt (.num 0) then
    [createRegistryEntry baseTransactionId metalTransactionId "003" "MAKING_CHARGES"
      s!"Party making charges - Unfix purchase from {partyName}" (some party.id) false
      totals.makingCharges totals.makingCharges
      { debit := .num 0, grossWeight := some totals.grossWeight,
        goldBidValue := some totals.goldBidValue }
      voucherNumber adminId]
   else []) ++
  (if totals.otherChargesAmount.jgt (.num 0) then
    [createRegistryEntry baseTransactionId metalTransactionId "008" "OTHER_CHARGES"
      s!"{ocd} charges - Purchase from {partyName}" (some party.id) false
      totals.otherChargesAmount totals.otherChargesAmount
      { goldDebit := totals.grossWeight, cashDebit := totals.goldValue,
        grossWeight := some totals.grossWeight, goldBidValue := some totals.goldBidValue }
      voucherNumber adminId]
   else []) ++
  (if totals.vatAmount.jgt (.num 0) then
    [createRegistryEntry baseTransactionId metalTransactionId "009" "VAT_AMOUNT"
      s!"Party Vat amount - Purchase from {partyName}" (some party.id) false
      totals.vatAmount totals.vatAmount
      { goldDebit := totals.grossWeight, cashDebit := totals.goldValue,
        grossWeight := some totals.grossWeight, goldBidValue := some totals.goldBidValue }
      voucherNumber adminId]
   else []) ++
  (if totals.premium.jgt (.num 0) then
    [createRegistryEntry baseTransactionId metalTransactionId "004" "PREMIUM"
      s!"Party premium - Unfix purchase from {partyName}" (some party.id) false
      totals.premium totals.premium
      { debit := .num 0, grossWeight := some totals.grossWeight,
        goldBidValue := some totals.goldBidValue }
      voucherNumber adminId]
   else []) ++
  (if totals.discount.jgt (.num 0) then
    [createRegistryEntry baseTransactionId metalTransactionId "007" "DISCOUNT"
      s!"Party discount - Unfix purchase from {partyName}" (some party.id) false
      totals.discount (.num 0)
      { debit := totals.discount, grossWeight := some totals.grossWeight,
        goldBidValue := some totals.goldBidValue }
      voucherNumber adminId]
   else []) ++
  (if totals.pureWeight.jgt (.num 0) then
    [createRegistryEntry baseTransactionId metalTransactionId "005" "GOLD"
      s!"Gold inventory - Unfix purchase from {partyName}" none true
      totals.pureWeight (.num 0)
      { debit := totals.pureWeight, grossWeight := some totals.grossWeight,
        goldBidValue := some totals.goldBidValue }
      voucherNumber adminId]
   else []) ++
  (if totals.grossWeight.jgt (.num 0) then
    [createRegistryEntry baseTransactionId metalTransactionId "006" "GOLD_STOCK"
      s!"Gold stock - Unfix purchase from {partyName}" none true
      totals.grossWeight (.num 0)
      { debit := totals.grossWeight, grossWeight := some totals.grossWeight,
        pureWeight := some totals.pureWeight, purity := some totals.purity,
        goldBidValue := some totals.goldBidValue }
      voucherNumber adminId]
   else [])

/-- Function `buildPurchaseReturnFixEntries`: the purchaseReturn/fix posting template. -/
def buildPurchaseReturnFixEntries (totals : Totals) (metalTransactionId : ℕ) (party : Party)
    (baseTransactionId : String) (voucherNumber : String) (adminId : ℕ)
    (item : StockItem) : List (Option RegEntry) :=
  let partyName := strOr party.customerName party.accountCode
  let ocd := item.otherChargesDescription
  (if totals.pureWeight.jgt (.num 0) then
    [createRegistryEntry baseTransactionId metalTransactionId "PARTY-GOLD" "purchase-fixing"
      s!"Party gold balance - Purchase return from {partyName}" (some party.id) true
      totals.pureWeight (.num 0)
      { debit := totals.pureWeight, goldDebit := totals.pureWeight, cashCredit := totals.goldValue,
        grossWeight := some totals.grossWeight, pureWeight := some totals.pureWeight,
        purity := some totals.purity, goldBidValue := some totals.goldBidValue }
      voucherNumber adminId]
   else []) ++
  (if totals.totalAmount.jgt (.num 0) then
    [createRegistryEntry baseTransactionId metalTransactionId "001" "PARTY_CASH_BALANCE"
      s!"Party cash balance - Purchase return from {partyName}" (some party.id) false
      totals.totalAmount (.num 0)
      { debit := totals.totalAmount, goldDebit := totals.grossWeight, cashCredit := totals.goldValue,
        grossWeight := some totals.grossWeight, pureWeight := some totals.pureWeight,
        purity := some totals.purity, goldBidValue := some totals.goldBidValue }
      voucherNumber adminId]
   else []) ++
  (if totals.makingCharges.jgt (.num 0) then
    [createRegistryEntry baseTransactionId metalTransactionId "002" "MAKING_CHARGES"
      s!"Party making charges - Purchase return from {partyName}" (some party.id) false
      totals.makingCharges (.num 0)
      { debit := totals.makingCharges, goldDebit := totals.grossWeight, cashCredit := totals.goldValue,
        grossWeight := some totals.grossWeight, pureWeight := some totals.pureWeight,
        purity := some totals.purity, goldBidValue := some totals.goldBidValue }
      voucherNumber adminId]
   else []) ++
  (if totals.otherChargesAmount.jgt (.num 0) then
    [createRegistryEntry baseTransactionId metalTransactionId "008" "OTHER_CHARGES"
      s!"{ocd} charges - Purchase from {partyName}" (some party.id) false
      totals.otherChargesAmount totals.otherChargesAmount
      { goldDebit := totals.grossWeight, cashDebit := totals.goldValue,
        grossWeight := some totals.grossWeight, goldBidValue := some totals.goldBidValue }
      voucherNumber adminId]
   else []) ++
  (if totals.vatAmount.jgt (.num 0) then
    [createRegistryEntry baseTransactionId metalTransactionId "009" "VAT_AMOUNT"
      s!"Party Vat amount - Purchase from {partyName}" (some party.id) false
      totals.vatAmount (.num 0)
      { debit := totals.vatAmount, goldDebit := totals.grossWeight, cashDebit := totals.goldValue,
        grossWeight := some totals.grossWeight, goldBidValue := some totals.goldBidValue }
      voucherNumber adminId]
   else []) ++
  (if totals.premium.jgt (.num 0) then
    [createRegistryEntry baseTransactionId metalTransactionId "003" "PREMIUM"
      s!"Party premium - Purchase return from {partyName}" (some party.id) false
      totals.premium (.num 0)
      { debit := totals.premium, goldDebit := totals.grossWeight, cashCredit := totals.goldValue,
        grossWeight := some totals.grossWeight, pureWeight := some totals.pureWeight,
        purity := some totals.purity, goldBidValue := some totals.goldBidValue }
      voucherNumber adminId]
   else []) ++
  (if totals.discount.jgt (.num 0) then
    [createRegistryEntry baseTransactionId metalTransactionId "007" "DISCOUNT"
      s!"Party discount - Purchase return from {partyName}" (some party.id) false
      totals.discount totals.discount
      { goldDebit := totals.grossWeight, cashCredit := totals.goldValue,
        grossWeight := some totals.grossWeight, pureWeight := some totals.pureWeight,
        purity := some totals.purity, goldBidValue := some totals.goldBidValue }
      voucherNumber adminId]
   else []) ++
  (if totals.pureWeight.jgt (.num 0) then
    [createRegistryEntry baseTransactionId metalTransactionId "004" "GOLD"
      s!"Gold inventory - Purchase return from {partyName}" none true
      totals.pureWeight totals.pureWeight
      { goldDebit := totals.grossWeight, cashCredit := totals.goldValue,
        grossWeight := some totals.grossWeight, pureWeight := some totals.pureWeight,
        purity := some totals.purity, goldBidValue := some totals.goldBidValue }
      voucherNumber adminId]
   else []) ++
  (if totals.grossWeight.jgt (.num 0) then
    [createRegistryEntry baseTransactionId metalTransactionId "005" "GOLD_STOCK"
      s!"Gold stock - Purchase return from {partyName}" none true
      totals.grossWeight totals.grossWeight
      { goldDebit := totals.grossWeight, cashCredit := totals.goldValue,
        grossWeight := some totals.grossWeight, pureWeight := some totals.pureWeight,
        purity := some totals.purity, goldBidValue := some totals.goldBidValue }
      voucherNumber adminId]
   else [])

/-- Function `buildPurchaseReturnUnfixEntries`: the purchaseReturn/unfix posting
template.  On the PREMIUM leg the source writes the shorthand
`{ debit: totals.premium, goldBidValue }` where no `goldBidValue` binding is
in scope (a runtime `ReferenceError` when that leg is reached); the field is
modelled as absent. -/
def buildPurchaseReturnUnfixEntries (totals : Totals) (metalTransactionId : ℕ) (party : Party)
    (baseTransactionId : String) (voucherNumber : String) (adminId : ℕ)
    (item : StockItem) : List (Option RegEntry) :=
  let partyName := strOr party.customerName party.accountCode
  let ocd := item.otherChargesDescription
  (if totals.pureWeight.jgt (.num 0) then
    [createRegistryEntry baseTransactionId metalTransactionId "001" "PARTY_GOLD_BALANCE"
      s!"Party gold balance - Unfix purchase return from {partyName}" (some party.id) false
      totals.pureWeight (.num 0)
      { debit := totals.pureWeight, grossWeight := some totals.grossWeight,
        pureWeight := some totals.pureWeight, purity := some totals.purity,
        goldBidValue := some totals.goldBidValue }
      voucherNumber adminId]
   else []) ++
  (if totals.makingCharges.jgt (.num 0) then
    [createRegistryEntry baseTransactionId metalTransactionId "003" "MAKING_CHARGES"
      s!"Party making charges - Unfix purchase return from {partyName}" (some party.id) false
      totals.makingCharges (.num 0)
      { debit := totals.makingCharges, grossWeight := some totals.grossWeight,
        pureWeight := some totals.pureWeight, purity := some totals.purity,
        goldBidValue := some totals.goldBidValue }
      voucherNumber adminId]
   else []) ++
  (if totals.otherChargesAmount.jgt (.num 0) then
    [createRegistryEntry baseTransactionId metalTransactionId "008" "OTHER_CHARGES"
      s!"{ocd} charges - Purchase from {partyName}" (some party.id) false
      totals.otherChargesAmount (.num 0)
      { goldDebit := totals.grossWeight, cashDebit := totals.goldValue,
        grossWeight := some totals.grossWeight, goldBidValue := some totals.goldBidValue }
      voucherNumber adminId]
   else []) ++
  (if totals.vatAmount.jgt (.num 0) then
    [createRegistryEntry baseTransactionId metalTransactionId "009" "VAT_AMOUNT"
      s!"Party Vat amount - Purchase from {partyName}" (some party.id) false
      totals.vatAmount totals.vatAmount
      { goldDebit := totals.grossWeight, cashDebit := totals.goldValue,
        grossWeight := some totals.grossWeight, goldBidValue := some totals.goldBidValue }
      voucherNumber adminId]
   else []) ++
  (if totals.premium.jgt (.num 0) then
    [createRegistryEntry baseTransactionId metalTransactionId "004" "PREMIUM"
      s!"Party premium - Unfix purchase return from {partyName}" (some party.id) false
      totals.premium (.num 0)
      { debit := totals.premium }
      voucherNumber adminId]
   else []) ++
  (if totals.discount.jgt (.num 0) then
    [createRegistryEntry baseTransactionId metalTransactionId "007" "DISCOUNT"
      s!"Party discount - Unfix purchase return from {partyName}" (some party.id) false
      totals.discount totals.discount
      {}
      voucherNumber adminId]
   else []) ++
  (if totals.pureWeight.jgt (.num 0) then
    [createRegistryEntry baseTransactionId metalTransactionId "005" "GOLD"
      s!"Gold inventory - Unfix purchase return from {partyName}" none true
      totals.pureWeight totals.pureWeight
      {}
      voucherNumber adminId]
   else []) ++
  (if totals.grossWeight.jgt (.num 0) then
    [createRegistryEntry baseTransactionId metalTransactionId "006" "GOLD_STOCK"
      s!"Gold stock - Unfix purchase return from {partyName}" none true
      totals.grossWeight totals.grossWeight
      { grossWeight := some totals.grossWeight, pureWeight := some totals.pureWeight,
        purity := some totals.purity, goldBidValue := some totals.goldBidValue }
      voucherNumber adminId]
   else [])

/-- Function `buildSaleFixEntries`: the sale/fix posting template. -/
def buildSaleFixEntries (totals : Totals) (metalTransactionId : ℕ) (party : Party)
    (baseTransactionId : String) (voucherNumber : String) (adminId : ℕ)
    (item : StockItem) : List (Option RegEntry) :=
  let partyName := strOr party.customerName party.accountCode
  let ocd := item.otherChargesDescription
  (if totals.pureWeight.jgt (.num 0) then
    [createRegistryEntry baseTransactionId metalTransactionId "PARTY-GOLD" "sales-fixing"
      s!"Party gold balance - Sale to {partyName}" (some party.id) true
      totals.pureWeight (.num 0)
      { debit := totals.pureWeight, goldDebit := totals.pureWeight, cashCredit := totals.goldValue,
        grossWeight := some totals.grossWeight, goldBidValue := some totals.goldBidValue }
      voucherNumber adminId]
   else []) ++
  (if totals.totalAmount.jgt (.num 0) then
    [createRegistryEntry baseTransactionId metalTransactionId "001" "PARTY_CASH_BALANCE"
      s!"Party cash balance - Sale to {partyName}" (some party.id) false
      totals.totalAmount (.num 0)
      { debit := totals.totalAmount, goldCredit := totals.grossWeight, cashCredit := totals.goldValue,
        grossWeight := some totals.grossWeight, goldBidValue := some totals.goldBidValue }
      voucherNumber adminId]
   else []) ++
  (if totals.makingCharges.jgt (.num 0) then
    [createRegistryEntry baseTransactionId metalTransactionId "002" "MAKING_CHARGES"
      s!"Party making charges - Sale to {partyName}" (some party.id) false
      totals.makingCharges (.num 0)
      { debit := totals.makingCharges, goldCredit := totals.grossWeight, cashCredit := totals.goldValue,
        grossWeight := some totals.grossWeight, goldBidValue := some totals.goldBidValue }
      voucherNumber adminId]
   else []) ++
  (if totals.otherChargesAmount.jgt (.num 0) then
    [createRegistryEntry baseTransactionId metalTransactionId "008" "OTHER_CHARGES"
      s!"{ocd} charges - sale to {partyName}" (some party.id) false
      totals.otherChargesAmount (.num 0)
      { debit := totals.otherChargesAmount, goldDebit := totals.grossWeight, cashDebit := totals.goldValue,
        grossWeight := some totals.grossWeight, goldBidValue := some totals.goldBidValue }
      voucherNumber adminId]
   else []) ++
  (if totals.vatAmount.jgt (.num 0) then
    [createRegistryEntry baseTransactionId metalTransactionId "009" "VAT_AMOUNT"
      s!"Party Vat amount - sale to {partyName}" (some party.id) false
      totals.vatAmount (.num 0)
      { debit := totals.vatAmount, goldDebit := totals.grossWeight, cashDebit := totals.goldValue,
        grossWeight := some totals.grossWeight, goldBidValue := some totals.goldBidValue }
      voucherNumber adminId]
   else []) ++
  (if totals.premium.jgt (.num 0) then
    [createRegistryEntry baseTransactionId metalTransactionId "003" "PREMIUM"
      s!"Party premium - Sale to {partyName}" (some party.id) false
      totals.premium (.num 0)
      { debit := totals.premium, goldCredit := totals.grossWeight, cashCredit := totals.goldValue,
        grossWeight := some totals.grossWeight, goldBidValue := some totals.goldBidValue }
      voucherNumber adminId]
   else []) ++
  (if totals.discount.jgt (.num 0) then
    [createRegistryEntry baseTransactionId metalTransactionId "007" "DISCOUNT"
      s!"Party discount - Sale to {partyName}" (some party.id) false
      totals.discount totals.discount
      { goldCredit := totals.grossWeight, cashCredit := totals.goldValue,
        grossWeight := some totals.grossWeight, goldBidValue := some totals.goldBidValue }
      voucherNumber adminId]
   else []) ++
  (if totals.pureWeight.jgt (.num 0) then
    [createRegistryEntry baseTransactionId metalTransactionId "004" "GOLD"
      s!"Gold inventory - Sale to {partyName}" none true
      totals.pureWeight totals.pureWeight
      { goldCredit := totals.grossWeight, cashCredit := totals.goldValue,
        grossWeight := some totals.grossWeight, goldBidValue := some totals.goldBidValue }
      voucherNumber adminId]
   else []) ++
  (if totals.grossWeight.jgt (.num 0) then
    [createRegistryEntry baseTransactionId metalTransactionId "005" "GOLD_STOCK"
      s!"Gold stock - Sale to {partyName}" none true
      totals.grossWeight totals.grossWeight
      { goldCredit := totals.grossWeight, cashCredit := totals.goldValue,
        grossWeight := some totals.grossWeight, pureWeight := some totals.pureWeight,
        purity := some totals.purity, goldBidValue := some totals.goldBidValue }
      voucherNumber adminId]
   else [])

/-- Function `buildSaleUnfixEntries`: the sale/unfix posting template. -/
def buildSaleUnfixEntries (totals : Totals) (metalTransactionId : ℕ) (party : Party)
    (baseTransactionId : String) (voucherNumber : String) (adminId : ℕ)
    (item : StockItem) : List (Option RegEntry) :=
  let partyName := strOr party.customerName party.accountCode
  let ocd := item.otherChargesDescription
  (if totals.pureWeight.jgt (.num 0) then
    [createRegistryEntry baseTransactionId metalTransactionId "001" "PARTY_GOLD_BALANCE"
      s!"Party gold balance - Unfix Sale return from {partyName}" (some party.id) false
      totals.pureWeight (.num 0)
      { debit := totals.pureWeight, grossWeight := some totals.grossWeight,
        goldBidValue := some totals.goldBidValue }
      voucherNumber adminId]
   else []) ++
  (if totals.makingCharges.jgt (.num 0) then
    [createRegistryEntry baseTransactionId metalTransactionId "003" "MAKING_CHARGES"
      s!"Party making charges - Unfix Sale return from {partyName}" (some party.id) false
      totals.makingCharges (.num 0)
      { debit := totals.makingCharges, grossWeight := some totals.grossWeight,
        goldBidValue := some totals.goldBidValue }
      voucherNumber adminId]
   else []) ++
  (if totals.otherChargesAmount.jgt (.num 0) then
    [createRegistryEntry baseTransactionId metalTransactionId "008" "OTHER_CHARGES"
      s!"{ocd} charges - Unfix Sale return from {partyName}" (some party.id) false
      totals.otherChargesAmount (.num 0)
      { debit := totals.otherChargesAmount, goldDebit := totals.grossWeight, cashDebit := totals.goldValue,
        grossWeight := some totals.grossWeight, goldBidValue := some totals.goldBidValue }
      voucherNumber adminId]
   else []) ++
  (if totals.vatAmount.jgt (.num 0) then
    [createRegistryEntry baseTransactionId metalTransactionId "009" "VAT_AMOUNT"
      s!"Party Vat amount - Unfix Sale return from {partyName}" (some party.id) false
      totals.vatAmount (.num 0)
      { debit := totals.vatAmount, goldDebit := totals.grossWeight, cashDebit := totals.goldValue,
        grossWeight := some totals.grossWeight, goldBidValue := some totals.goldBidValue }
      voucherNumber adminId]
   else []) ++
  (if totals.premium.jgt (.num 0) then
    [createRegistryEntry baseTransactionId metalTransactionId "004" "PREMIUM"
      s!"Party premium - Unfix Sale return from {partyName}" (some party.id) false
      totals.premium (.num 0)
      { debit := totals.premium, grossWeight := some totals.grossWeight,
        goldBidValue := some totals.goldBidValue }
      voucherNumber adminId]
   else []) ++
  (if totals.discount.jgt (.num 0) then
    [createRegistryEntry baseTransactionId metalTransactionId "007" "DISCOUNT"
      s!"Party discount - Unfix Sale return from {partyName}" (some party.id) false
      totals.discount totals.discount
      { grossWeight := some totals.grossWeight, goldBidValue := some totals.goldBidValue }
      voucherNumber adminId]
   else []) ++
  (if totals.pureWeight.jgt (.num 0) then
    [createRegistryEntry baseTransactionId metalTransactionId "005" "GOLD"
      s!"Gold inventory - Unfix Sale return from {partyName}" none true
      totals.pureWeight totals.pureWeight
      { grossWeight := some totals.grossWeight, goldBidValue := some totals.goldBidValue }
      voucherNumber adminId]
   else []) ++
  (if totals.grossWeight.jgt (.num 0) then
    [createRegistryEntry baseTransactionId metalTransactionId "006" "GOLD_STOCK"
      s!"Gold stock - Unfix Sale return from {partyName}" none true
      totals.grossWeight totals.grossWeight
      { grossWeight := some totals.grossWeight, pureWeight := some totals.pureWeight,
        purity := some totals.purity, goldBidValue := some totals.goldBidValue }
      voucherNumber adminId]
   else [])

/-- Function `buildSaleReturnUnfixEntries`: the saleReturn/unfix posting template. -/
def buildSaleReturnUnfixEntries (totals : Totals) (metalTransactionId : ℕ) (party : Party)
    (baseTransactionId : String) (voucherNumber : String) (adminId : ℕ)
    (item : StockItem) : List (Option RegEntry) :=
  let partyName := strOr party.customerName party.accountCode
  let ocd := item.otherChargesDescription
  (if totals.pureWeight.jgt (.num 0) then
    [createRegistryEntry baseTransactionId metalTransactionId "001" "PARTY_GOLD_BALANCE"
      s!"Party gold balance - Unfix sale return from {partyName}" (some party.id) false
      totals.pureWeight totals.pureWeight
      { grossWeight := some totals.grossWeight, goldBidValue := some totals.goldBidValue }
      voucherNumber adminId]
   else []) ++
  (if totals.makingCharges.jgt (.num 0) then
    [createRegistryEntry baseTransactionId metalTransactionId "003" "MAKING_CHARGES"
      s!"Party making charges - Unfix sale return from {partyName}" (some party.id) false
      totals.makingCharges totals.makingCharges
      { grossWeight := some totals.grossWeight, goldBidValue := some totals.goldBidValue }
      voucherNumber adminId]
   else []) ++
  (if totals.otherChargesAmount.jgt (.num 0) then
    [createRegistryEntry baseTransactionId metalTransactionId "008" "OTHER_CHARGES"
      s!"{ocd} charges - Unfix Sale return from {partyName}" (some party.id) false
      totals.otherChargesAmount totals.otherChargesAmount
      { goldDebit := totals.grossWeight, cashDebit := totals.goldValue,
        grossWeight := some totals.grossWeight, goldBidValue := some totals.goldBidValue }
      voucherNumber adminId]
   else []) ++
  (if totals.vatAmount.jgt (.num 0) then
    [createRegistryEntry baseTransactionId metalTransactionId "009" "VAT_AMOUNT"
      s!"Party Vat amount - Unfix Sale return from {partyName}" (some party.id) false
      totals.vatAmount totals.vatAmount
      { goldDebit := totals.grossWeight, cashDebit := totals.goldValue,
        grossWeight := some totals.grossWeight, goldBidValue := some totals.goldBidValue }
      voucherNumber adminId]
   else []) ++
  (if totals.premium.jgt (.num 0) then
    [createRegistryEntry baseTransactionId metalTransactionId "004" "PREMIUM"
      s!"Party premium - Unfix sale return from {partyName}" (some party.id) false
      totals.premium totals.premium
      { grossWeight := some totals.grossWeight, goldBidValue := some totals.goldBidValue }
      voucherNumber adminId]
   else []) ++
  (if totals.discount.jgt (.num 0) then
    [createRegistryEntry baseTransactionId metalTransactionId "007" "DISCOUNT"
      s!"Party discount - Unfix sale return from {partyName}" (some party.id) false
      totals.discount (.num 0)
      { debit := totals.discount, grossWeight := some totals.grossWeight,
        goldBidValue := some totals.goldBidValue }
      voucherNumber adminId]
   else []) ++
  (if totals.pureWeight.jgt (.num 0) then
    [createRegistryEntry baseTransactionId metalTransactionId "005" "GOLD"
      s!"Gold inventory - Unfix sale return from {partyName}" none true
      totals.pureWeight (.num 0)
      { debit := totals.pureWeight, grossWeight := some totals.grossWeight,
        goldBidValue := some totals.goldBidValue }
      voucherNumber adminId]
   else []) ++
  (if totals.grossWeight.jgt (.num 0) then
    [createRegistryEntry baseTransactionId metalTransactionId "006" "GOLD_STOCK"
      s!"Gold stock - Unfix sale return from {partyName}" none true
      totals.grossWeight (.num 0)
      { debit := totals.grossWeight, grossWeight := some totals.grossWeight,
        pureWeight := some totals.pureWeight, purity := some totals.purity,
        goldBidValue := some totals.goldBidValue }
      voucherNumber adminId]
   else [])

/-- Function `buildSaleReturnFixEntries`: the saleReturn/fix posting template. -/
def buildSaleReturnFixEntries (totals : Totals) (metalTransactionId : ℕ) (party : Party)
    (baseTransactionId : String) (voucherNumber : String) (adminId : ℕ)
    (item : StockItem) : List (Option RegEntry) :=
  let partyName := strOr party.customerName party.accountCode
  let ocd := item.otherChargesDescription
  (if totals.pureWeight.jgt (.num 0) then
    [createRegistryEntry baseTransactionId metalTransactionId "PARTY-GOLD" "sale-fixing"
      s!"Party gold balance - Sale return from {partyName}" (some party.id) true
      totals.pureWeight totals.pureWeight
      { debit := .num 0, goldCredit := totals.pureWeight, cashDebit := totals.goldValue,
        grossWeight := some totals.grossWeight, goldBidValue := some totals.goldBidValue }
      voucherNumber adminId]
   else []) ++
  (if totals.totalAmount.jgt (.num 0) then
    [createRegistryEntry baseTransactionId metalTransactionId "001" "PARTY_CASH_BALANCE"
      s!"Party cash balance - Sale return from {partyName}" (some party.id) false
      totals.totalAmount totals.totalAmount
      { goldCredit := totals.grossWeight, cashDebit := totals.goldValue,
        grossWeight := some totals.grossWeight, goldBidValue := some totals.goldBidValue }
      voucherNumber adminId]
   else []) ++
  (if totals.makingCharges.jgt (.num 0) then
    [createRegistryEntry baseTransactionId metalTransactionId "002" "MAKING_CHARGES"
      s!"Party making charges - Sale return from {partyName}" (some party.id) false
      totals.makingCharges totals.makingCharges
      { goldCredit := totals.grossWeight, cashDebit := totals.goldValue,
        grossWeight := some totals.grossWeight, goldBidValue := some totals.goldBidValue }
      voucherNumber adminId]
   else []) ++
  (if totals.otherChargesAmount.jgt (.num 0) then
    [createRegistryEntry baseTransactionId metalTransactionId "008" "OTHER_CHARGES"
      s!"{ocd} charges -  Sale return from {partyName}" (some party.id) false
      totals.otherChargesAmount totals.otherChargesAmount
      { goldDebit := totals.grossWeight, cashDebit := totals.goldValue,
        grossWeight := some totals.grossWeight, goldBidValue := some totals.goldBidValue }
      voucherNumber adminId]
   else []) ++
  (if totals.vatAmount.jgt (.num 0) then
    [createRegistryEntry baseTransactionId metalTransactionId "009" "VAT_AMOUNT"
      s!"Party Vat amount -  Sale return from {partyName}" (some party.id) false
      totals.vatAmount totals.vatAmount
      { goldDebit := totals.grossWeight, cashDebit := totals.goldValue,
        grossWeight := some totals.grossWeight, goldBidValue := some totals.goldBidValue }
      voucherNumber adminId]
   else []) ++
  (if totals.premium.jgt (.num 0) then
    [createRegistryEntry baseTransactionId metalTransactionId "003" "PREMIUM"
      s!"Party premium - Sale return from {partyName}" (some party.id) false
      totals.premium totals.premium
      { goldCredit := totals.grossWeight, cashDebit := totals.goldValue,
        grossWeight := some totals.grossWeight, goldBidValue := some totals.goldBidValue }
      voucherNumber adminId]
   else []) ++
  (if totals.discount.jgt (.num 0) then
    [createRegistryEntry baseTransactionId metalTransactionId "007" "DISCOUNT"
      s!"Party discount - Sale return from {partyName}" (some party.id) false
      totals.discount (.num 0)
      { debit := totals.discount, goldCredit := totals.grossWeight, cashDebit := totals.goldValue,
        grossWeight := some totals.grossWeight, goldBidValue := some totals.goldBidValue }
      voucherNumber adminId]
   else []) ++
  (if totals.pureWeight.jgt (.num 0) then
    [createRegistryEntry baseTransactionId metalTransactionId "004" "GOLD"
      s!"Gold inventory - Sale return from {partyName}" none true
      totals.pureWeight (.num 0)
      { debit := totals.pureWeight, goldCredit := totals.grossWeight, cashDebit := totals.goldValue,
        purity := some totals.purity, grossWeight := some totals.grossWeight,
        goldBidValue := some totals.goldBidValue }
      voucherNumber adminId]
   else []) ++
  (if totals.grossWeight.jgt (.num 0) then
    [createRegistryEntry baseTransactionId metalTransactionId "005" "GOLD_STOCK"
      s!"Gold stock - Sale return from {partyName}" none true
      totals.grossWeight (.num 0)
      { debit := totals.grossWeight, goldCredit := totals.grossWeight, cashDebit := totals.goldValue,
        grossWeight := some totals.grossWeight, pureWeight := some totals.pureWeight,
        purity := some totals.purity, goldBidValue := some totals.goldBidValue }
      voucherNumber adminId]
   else [])

/-- Function `buildPurchaseEntries`: dispatch on mode. -/
def buildPurchaseEntries (mode : Mode) (metalTransactionId : ℕ) (totals : Totals) (party : Party)
    (baseTransactionId : String) (voucherNumber : String) (adminId : ℕ)
    (item : StockItem) : List (Option RegEntry) :=
  match mode with
  | .fix => buildPurchaseFixEntries totals metalTransactionId party baseTransactionId voucherNumber adminId item
  | .unfix => buildPurchaseUnfixEntries totals metalTransactionId party baseTransactionId voucherNumber adminId item

/-- Function `buildSaleEntries`: dispatch on mode. -/
def buildSaleEntries (mode : Mode) (metalTransactionId : ℕ) (totals : Totals) (party : Party)
    (baseTransactionId : String) (voucherNumber : String) (adminId : ℕ)
    (item : StockItem) : List (Option RegEntry) :=
  match mode with
  | .fix => buildSaleFixEntries totals metalTransactionId party baseTransactionId voucherNumber adminId item
  | .unfix => buildSaleUnfixEntries totals metalTransactionId party baseTransactionId voucherNumber adminId item

/-- Function `buildPurchaseReturnEntries`: dispatch on mode. -/
def buildPurchaseReturnEntries (mode : Mode) (metalTransactionId : ℕ) (totals : Totals) (party : Party)
    (baseTransactionId : String) (voucherNumber : String) (adminId : ℕ)
    (item : StockItem) : List (Option RegEntry) :=
  match mode with
  | .fix => buildPurchaseReturnFixEntries totals metalTransactionId party baseTransactionId voucherNumber adminId item
  | .unfix => buildPurchaseReturnUnfixEntries totals metalTransactionId party baseTransactionId voucherNumber adminId item

/-- Function `buildSaleReturnEntries`: dispatch on mode. -/
def buildSaleReturnEntries (mode : Mode) (metalTransactionId : ℕ) (totals : Totals) (party : Party)
    (baseTransactionId : String) (voucherNumber : String) (adminId : ℕ)
    (item : StockItem) : List (Option RegEntry) :=
  match mode with
  | .fix => buildSaleReturnFixEntries totals metalTransactionId party baseTransactionId voucherNumber adminId item
  | .unfix => buildSaleReturnUnfixEntries totals metalTransactionId party baseTransactionId voucherNumber adminId item

/-- A Metal Transaction document (the fields the posting engine reads). -/
structure MetalTransaction where
  id : ℕ
  transactionType : TransactionType
  fixed : Bool := false
  unfix : Bool := false
  isActive : Bool := true
  partyCode : ℕ := 0
  stockItems : List StockItem := []
  totalAmountSession : TotalSession := {}
  voucherNumber : String := ""
deriving DecidableEq, Repr

/-- Function `generateTransactionId()`: impure in the source (`Date.now`,
`Math.random`); modelled with the current year and the drawn 3-digit
number as parameters. -/
def generateTransactionId (currentYear : ℕ) (randomNum : ℤ) : String :=
  "TXN-" ++ toString currentYear ++ "-" ++ toString randomNum

/-- The random draw of `generateTransactionId`:
`Math.floor(Math.random() * 900) + 100` for `Math.random() = r`. -/
def randomNum900 (r : ℚ) : ℤ := ⌊r * 900⌋ + 100

/-- Function `buildRegistryEntries(metalTransaction, party, adminId)`: resolve the
mode once, loop over the stock items recomputing totals per single item,
dispatch on the transaction type, and drop `null` entries
(`entries.filter(Boolean)`).  The base transaction id, generated once per
invocation before the loop, is a parameter (see `generateTransactionId`). -/
def buildRegistryEntries (metalTransaction : MetalTransaction) (party : Party)
    (adminId : ℕ) (baseTransactionId : String) : List RegEntry :=
  let mode := getTransactionMode metalTransaction.fixed metalTransaction.unfix
  ((metalTransaction.stockItems.map fun item =>
    let totals := calculateTotals [item] metalTransaction.totalAmountSession
    match metalTransaction.transactionType with
    | .purchase =>
        buildPurchaseEntries mode metalTransaction.id totals party baseTransactionId
          metalTransaction.voucherNumber adminId item
    | .sale =>
        buildSaleEntries mode metalTransaction.id totals party baseTransactionId
          metalTransaction.voucherNumber adminId item
    | .purchaseReturn =>
        buildPurchaseReturnEntries mode metalTransaction.id totals party baseTransactionId
          metalTransaction.voucherNumber adminId item
    | .saleReturn =>
        buildSaleReturnEntries mode metalTransaction.id totals party baseTransactionId
          metalTransaction.voucherNumber adminId item).flatten).filterMap id

/-- The balance fields of an account document. -/
structure AccountBal where
  goldGrams : JNum := .num 0
  goldValue : JNum := .num 0
  cashAmount : JNum := .num 0
deriving DecidableEq, Repr

/-- Apply a set of `$inc` operations to an account's balances. -/
def applyUpdateOps (a : AccountBal) (ops : UpdateOps) : AccountBal :=
  { goldGrams := a.goldGrams.add (ops.incGoldGrams.getD (.num 0))
    goldValue := a.goldValue.add (ops.incGoldValue.getD (.num 0))
    cashAmount := a.cashAmount.add (ops.incCashAmount.getD (.num 0)) }

/-- The persistent database state read and written by the lifecycle flows. -/
structure DBState where
  accounts : ℕ → AccountBal
  registry : List RegEntry
  transactions : List MetalTransaction

/-- Typed application errors (`createAppError`). -/
inductive AppErr where
  | notFound | infra
deriving DecidableEq, Repr

/-- The steps of `deleteMetalTransaction` at which an infrastructure
failure can be injected. -/
inductive DelStep where
  | registryDelete | findParty | balanceUpdate | txDelete
deriving DecidableEq, Repr

/-- Replace one account's balances in the account store. -/
def updateAccount (accounts : ℕ → AccountBal) (partyId : ℕ) (ops : UpdateOps) :
    ℕ → AccountBal :=
  fun k => if k = partyId then applyUpdateOps (accounts partyId) ops else accounts k

/-- Outcome of a lifecycle operation: the surfaced result and the state
that remains persisted afterwards. -/
structure DelOutcome where
  result : Except AppErr Unit
  state : DBState

/-- Function `deleteMetalTransaction(transactionId, adminId)`.  The MongoDB session
semantics are explicit: the balance reversal (`updateTradeDebtorsBalances`
with `isReversal = true`) and the row deletion join the session and are
rolled back when the unit aborts, while `deleteRegistryEntry(transaction)`
is invoked WITHOUT the session (the source leaves its `session` parameter
at its `null` default), so its deletion commits independently and persists
even when the unit aborts.  `failAt` injects an infrastructure failure at
the named step, which then throws before performing its own effect. -/
def deleteMetalTransaction (failAt : Option DelStep) (transactionId adminId : ℕ)
    (s : DBState) : DelOutcome :=
  match s.transactions.find? (fun t => t.id == transactionId) with
  | none => ⟨.error .notFound, s⟩
  | some tx =>
    if !tx.isActive then ⟨.error .notFound, s⟩
    else if failAt = some .registryDelete then ⟨.error .infra, s⟩
    else
      let s1 : DBState :=
        { s with registry := s.registry.filter (fun e => e.metalTransactionId ≠ tx.id) }
      if failAt = some .findParty then ⟨.error .infra, s1⟩
      else if failAt = some .balanceUpdate then ⟨.error .infra, s1⟩
      else
        let totals := calculateTotals tx.stockItems tx.totalAmountSession
        let mode := getTransactionMode tx.fixed tx.unfix
        let balanceChanges := calculateBalanceChanges tx.transactionType mode totals
        let ops := updateTradeDebtorsBalancesOps balanceChanges true
        let s2 : DBState := { s1 with accounts := updateAccount s1.accounts tx.partyCode ops }
        if failAt = some .txDelete then ⟨.error .infra, s1⟩
        else
          ⟨.ok (), { s2 with transactions := s2.transactions.filter (fun t => t.id ≠ transactionId) }⟩

/-- A Transaction Fixing document (the fields the lifecycle flows touch). -/
structure FixingTx where
  id : ℕ
  status : String := "active"
  updatedBy : Option ℕ := none
  isActive : Bool := true
  partyId : ℕ := 0
deriving DecidableEq, Repr

/-- The database state seen by the Transaction Fixing service. -/
structure FixState where
  accounts : ℕ → AccountBal
  registry : List RegEntry
  fixings : List FixingTx

/-- Function `cancelTransaction(id, adminId)` of the Transaction Fixing service:
find the document (404 when absent), then `findByIdAndUpdate` setting only
`status: "cancelled"` and `updatedBy`.  No account balance and no Registry
row is touched. -/
def cancelTransaction (id adminId : ℕ) (s : FixState) :
    Except AppErr Unit × FixState :=
  match s.fixings.find? (fun t => t.id == id) with
  | none => (.error .notFound, s)
  | some _ =>
    (.ok (),
      { s with fixings := s.fixings.map fun t =>
          if t.id == id then { t with status := "cancelled", updatedBy := some adminId } else t })

/-! ## Helper lemmas -/

/-- Double JS negation is the identity (also on `NaN`). -/
theorem JNum.neg_neg (a : JNum) : a.neg.neg = a := by
  cases a <;> simp [JNum.neg]

/-- Rounding a rational zero to two decimals yields zero. -/
theorem round2q_zero : round2q 0 = 0 := by
  simp [round2q]
  norm_num

/-! ## C4: mode resolution -/

/-- C4 counterexample: the claim says `getTransactionMode` returns
`"unfix"` when both flags are true, but the source's final fallthrough
returns `"fix"` there. -/
theorem getTransactionMode_both_true_is_fix :
    getTransactionMode true true = Mode.fix ∧ Mode.fix ≠ Mode.unfix := by
  decide

/-- C4 (amended): `getTransactionMode` returns `"fix"` iff `fixed` is set
(so also when both flags are set); it returns `"unfix"` whenever `fixed`
is false, including when both flags are false. -/
theorem getTransactionMode_fix_iff (fixed unfix : Bool) :
    getTransactionMode fixed unfix = Mode.fix ↔ fixed = true := by
  cases fixed <;> cases unfix <;> decide

/-! ## C10: return kinds mirror the opposite non-return kind -/

/-- C10: for both modes and every totals record, `purchaseReturn` produces
exactly the deltas of `sale`, and `saleReturn` exactly those of
`purchase`, component-wise. -/
theorem return_kinds_mirror_opposite (m : Mode) (t : Totals) :
    calculateBalanceChanges .purchaseReturn m t = calculateBalanceChanges .sale m t ∧
    calculateBalanceChanges .saleReturn m t = calculateBalanceChanges .purchase m t := by
  cases m <;> exact ⟨rfl, rfl⟩

/-! ## C2: fix mode settles entirely into cash -/

/-- C2: in fix mode every kind leaves gold balance, gold value, premium,
discount and other charges at exactly 0, and moves cash by
`+totalAmount` for purchase and saleReturn and `-totalAmount` for sale and
purchaseReturn; the totals' `totalAmount` comes straight from
`totalAmountSession.totalAmountAED` (with the source's `|| 0`). -/
theorem fix_mode_balance_changes (t : Totals) (items : List StockItem)
    (sess : TotalSession) :
    calculateBalanceChanges .purchase .fix t =
      { goldBalance := .num 0, goldValue := .num 0, cashBalance := t.totalAmount,
        premiumBalance := .num 0, discountBalance := .num 0, otherCharges := .num 0 } ∧
    calculateBalanceChanges .saleReturn .fix t =
      { goldBalance := .num 0, goldValue := .num 0, cashBalance := t.totalAmount,
        premiumBalance := .num 0, discountBalance := .num 0, otherCharges := .num 0 } ∧
    calculateBalanceChanges .sale .fix t =
      { goldBalance := .num 0, goldValue := .num 0, cashBalance := t.totalAmount.neg,
        premiumBalance := .num 0, discountBalance := .num 0, otherCharges := .num 0 } ∧
    calculateBalanceChanges .purchaseReturn .fix t =
      { goldBalance := .num 0, goldValue := .num 0, cashBalance := t.totalAmount.neg,
        premiumBalance := .num 0, discountBalance := .num 0, otherCharges := .num 0 } ∧
    (calculateTotals items sess).totalAmount = jsOr sess.totalAmountAED (.num 0) := by
  exact ⟨rfl, rfl, rfl, rfl, rfl⟩

/-! ## C1: purchase/unfix deltas and the sale negation -/

/-- C1: for every totals record, the purchase/unfix delta moves gold by
`+pureWeight`, the cash amount actually applied to the account is
`makingCharges + premium - discount` rounded to 2 decimals, and the
sale/unfix delta is the exact component-wise negation of the purchase
delta. -/
theorem purchase_unfix_delta_and_sale_negation (t : Totals) :
    (calculateBalanceChanges .purchase .unfix t).goldBalance = t.pureWeight ∧
    appliedCashDelta (buildUpdateOperations (calculateBalanceChanges .purchase .unfix t)) =
      ((t.makingCharges.add t.premium).sub t.discount).toFixed2 ∧
    calculateBalanceChanges .sale .unfix t =
      { goldBalance := (calculateBalanceChanges .purchase .unfix t).goldBalance.neg
        goldValue := (calculateBalanceChanges .purchase .unfix t).goldValue.neg
        cashBalance := (calculateBalanceChanges .purchase .unfix t).cashBalance.neg
        premiumBalance := (calculateBalanceChanges .purchase .unfix t).premiumBalance.neg
        discountBalance := (calculateBalanceChanges .purchase .unfix t).discountBalance.neg
        otherCharges := (calculateBalanceChanges .purchase .unfix t).otherCharges.neg } := by
  refine ⟨rfl, ?_, ?_⟩
  · show appliedCashDelta (buildUpdateOperations _) = _
    by_cases h : (t.makingCharges.add t.premium).add t.discount.neg = JNum.num 0
    · simp [appliedCashDelta, buildUpdateOperations, netCashChange, calculateBalanceChanges,
        JNum.ne0, JNum.sub, h, JNum.toFixed2, round2q_zero]
    · simp [appliedCashDelta, buildUpdateOperations, netCashChange, calculateBalanceChanges,
        JNum.ne0, JNum.sub, h]
  · simp [calculateBalanceChanges, JNum.neg_neg]

/-! ## C6: rounding of the applied net cash delta -/

/-- C6 counterexample input: a totals record whose making charges carry a
third decimal. -/
def totalsThirdDecimal : Totals := { makingCharges := .num (1 / 200) }

/-- C6 counterexample: the reversal path used by delete and update
(`updateTradeDebtorsBalances`) applies the raw net cash delta `-0.005`,
which is not a 2-decimal value, so the delta is not rounded before being
added there. -/
theorem tradeDebtors_cash_delta_unrounded :
    (updateTradeDebtorsBalancesOps
        (calculateBalanceChanges .purchase .unfix totalsThirdDecimal) true).incCashAmount =
      some (.num (-(1 / 200))) ∧
    (JNum.num (-(1 / 200))).toFixed2 ≠ JNum.num (-(1 / 200)) := by
  constructor
  · norm_num [updateTradeDebtorsBalancesOps, calculateBalanceChanges, totalsThirdDecimal,
      netCashChange, JNum.add, JNum.neg, JNum.ne0]
  · norm_num [JNum.toFixed2, round2q]

/-- C6 (amended): the net cash delta is rounded to 2 decimals only on the
path through `buildUpdateOperations` (create, and the apply-new-deltas leg
of update); the path through `updateTradeDebtorsBalances` (delete
reversal and update reversal) adds the raw, unrounded `± netCashChange`. -/
theorem cash_delta_rounding_by_path (bc : BalanceChanges) (isReversal : Bool) :
    appliedCashDelta (buildUpdateOperations bc) = (netCashChange bc).toFixed2 ∧
    appliedCashDelta (updateTradeDebtorsBalancesOps bc isReversal) =
      (if isReversal then (netCashChange bc).neg else netCashChange bc) := by
  constructor
  · by_cases h : netCashChange bc = JNum.num 0
    · simp [appliedCashDelta, buildUpdateOperations, JNum.ne0, h, JNum.toFixed2, round2q_zero]
    · simp [appliedCashDelta, buildUpdateOperations, JNum.ne0, h]
  · by_cases h : netCashChange bc = JNum.num 0
    · cases isReversal <;>
        simp [appliedCashDelta, updateTradeDebtorsBalancesOps, JNum.ne0, h, JNum.neg]
    · simp [appliedCashDelta, updateTradeDebtorsBalancesOps, JNum.ne0, h]

/-! ## C8: cancel is a pure status transition -/

/-- C8: cancelling a fixing transaction never touches account balances or
Registry rows; the stored documents are at most patched in `status`
(to `"cancelled"`) and `updatedBy`, all other fields kept. -/
theorem cancel_is_status_only (s : FixState) (id adminId : ℕ) :
    ((cancelTransaction id adminId s).2).accounts = s.accounts ∧
    ((cancelTransaction id adminId s).2).registry = s.registry ∧
    (((cancelTransaction id adminId s).2).fixings =
        s.fixings.map (fun t =>
          if t.id == id then { t with status := "cancelled", updatedBy := some adminId } else t) ∨
      ((cancelTransaction id adminId s).2).fixings = s.fixings) := by
  cases hf : s.fixings.find? (fun t => t.id == id) <;>
    simp [cancelTransaction, hf]

/-! ## C5: the totals reducer -/

/-- A stock item carrying no `vat` and no `otherCharges` sub-document. -/
def itemNoVat : StockItem :=
  { pureWeight := some (.num 5), purity := some (.num 1), grossWeight := some (.num 5),
    baseAmount := some (.num 100) }

/-- A fully populated stock item (positive premium). -/
def itemA : StockItem :=
  { makingChargesTotal := some (.num 10), premiumTotal := some (.num 5),
    vatAmount := some (.num 2), otherChargesAmount := some (.num 3),
    baseAmount := some (.num 100), pureWeight := some (.num 10),
    purity := some (.num (96 / 100)), grossWeight := some (.num (104 / 10)),
    metalRate := some (.num 250) }

/-- A fully populated stock item (negative premium, i.e. a discount, and a
making-charge fallback through `makingCharges.amount`). -/
def itemB : StockItem :=
  { makingChargesAmount := some (.num 7), premiumTotal := some (.num (-4)),
    vatAmount := some (.num 1), otherChargesAmount := some (.num 2),
    baseAmount := some (.num 50), pureWeight := some (.num 5),
    purity := some (.num (92 / 100)), grossWeight := some (.num (54 / 10)),
    metalRate := some (.num 260) }

/-- C5: on items with all fields present `calculateTotals` returns the
claimed sums (purity summed, premium/discount split by sign, goldBidValue
first non-zero rate, totalAmount straight from the session); but on an
item lacking `vat.amount`/`otherCharges.amount` the respective total is
`NaN` (the reducer adds the absent field with no `|| 0` fallback), not the
sum the claim requires. -/
theorem calculateTotals_sums_and_missing_vat_nan :
    (calculateTotals [itemNoVat] { totalAmountAED := some (.num 500) }).vatAmount = JNum.nan ∧
    (calculateTotals [itemNoVat] { totalAmountAED := some (.num 500) }).otherChargesAmount =
      JNum.nan ∧
    JNum.nan ≠ JNum.num 0 ∧
    calculateTotals [itemA, itemB] { totalAmountAED := some (.num 777) } =
      { makingCharges := .num 17, premium := .num 5, discount := .num 4,
        goldValue := .num 150, pureWeight := .num 15, grossWeight := .num (158 / 10),
        purity := .num (188 / 100), vatAmount := .num 3, otherChargesAmount := .num 5,
        goldBidValue := .num 250, totalAmount := .num 777 } := by
  refine ⟨?_, ?_, by simp, ?_⟩
  · norm_num [calculateTotals, calculateTotalsStep, itemNoVat, jsOr, JNum.truthy,
      JNum.add, JNum.addOpt, JNum.jgt, JNum.jlt, JNum.jabs, JNum.orJS]
  · norm_num [calculateTotals, calculateTotalsStep, itemNoVat, jsOr, JNum.truthy,
      JNum.add, JNum.addOpt, JNum.jgt, JNum.jlt, JNum.jabs, JNum.orJS]
  · norm_num [calculateTotals, calculateTotalsStep, itemA, itemB, jsOr, JNum.truthy,
      JNum.add, JNum.addOpt, JNum.jgt, JNum.jlt, JNum.jabs, JNum.orJS]

/-! ## C3: delete flow and the out-of-session registry deletion -/

/-- The transaction of the delete scenario. -/
def tx3 : MetalTransaction :=
  { id := 1, transactionType := .purchase, unfix := true, partyCode := 9,
    stockItems := [ { pureWeight := some (.num 100), grossWeight := some (.num 105),
                      purity := some (.num 1), makingChargesTotal := some (.num 50) } ],
    voucherNumber := "V1" }

/-- One stored Registry posting belonging to `tx3`. -/
def regEntry3 : RegEntry :=
  { transactionId := "TXN-2025-123-001", metalTransactionId := 1,
    type := "PARTY_GOLD_BALANCE", description := "Party gold balance", party := some 9,
    isBullion := false, value := .num 100, credit := .num 100, cashDebit := .num 0,
    goldCredit := .num 0, cashCredit := .num 0, goldDebit := .num 0, debit := .num 0,
    goldBidValue := none, reference := "V1", createdBy := 7, grossWeight := none,
    pureWeight := none, purity := none }

/-- The database before the delete: the transaction, one posting for it,
and the party's balances as the create left them. -/
def dbState3 : DBState :=
  { accounts := fun _ => { goldGrams := .num 100, goldValue := .num 0, cashAmount := .num 50 },
    registry := [regEntry3],
    transactions := [tx3] }

/-- C3: an infrastructure failure at the row-deletion step aborts the
atomic unit — the transaction row and the balances survive — yet the
Registry posting is already gone, because `deleteRegistryEntry` was
invoked without the session and its deletion committed independently.  A
partial effect thus persists after the abort, against the claim. -/
theorem delete_abort_still_loses_postings :
    (deleteMetalTransaction (some .txDelete) 1 7 dbState3).result = .error .infra ∧
    (deleteMetalTransaction (some .txDelete) 1 7 dbState3).state.registry = [] ∧
    (deleteMetalTransaction (some .txDelete) 1 7 dbState3).state.transactions = [tx3] ∧
    (deleteMetalTransaction (some .txDelete) 1 7 dbState3).state.accounts 9 =
      dbState3.accounts 9 := by
  refine ⟨?_, ?_, ?_, ?_⟩ <;>
    simp [deleteMetalTransaction, dbState3, tx3, regEntry3]

/-! ## C7: builders emit only strictly positive postings -/

/-- Each guarded segment of a builder contributes only entries whose value
is the guarded, strictly positive magnitude. -/
theorem guarded_value_pos (base : String) (mtid : ℕ) (suf ty d : String) (p : Option ℕ)
    (ib : Bool) (v c : JNum) (o : EntryOpts) (r : String) (a : ℕ) :
    ((if v.jgt (.num 0) then [createRegistryEntry base mtid suf ty d p ib v c o r a]
      else []).filterMap id).all (fun e => e.value.jgt (.num 0)) = true := by
  by_cases h : v.jgt (.num 0) = true
  · cases v with
    | nan => simp [JNum.jgt] at h
    | num q =>
      have hq : 0 < q := by simpa [JNum.jgt] using h
      have hle : (JNum.num q).jle (.num 0) = false := by
        simp [JNum.jle]
        linarith
      have htr : (JNum.num q).truthy = true := by
        simp [JNum.truthy]
        linarith
      simp [h, createRegistryEntry, hle, JNum.orJS, htr, JNum.jgt, hq]
  · simp [h]

/-- Function `buildPurchaseFixEntries` emits only strictly positive values. -/
theorem buildPurchaseFixEntries_value_pos (totals : Totals) (mtid : ℕ) (party : Party)
    (base vn : String) (adm : ℕ) (item : StockItem) :
    ((buildPurchaseFixEntries totals mtid party base vn adm item).filterMap id).all
      (fun e => e.value.jgt (.num 0)) = true := by
  simp only [buildPurchaseFixEntries, List.filterMap_append, List.all_append,
    Bool.and_eq_true]
  and_intros <;> apply guarded_value_pos

/-- Function `buildPurchaseUnfixEntries` emits only strictly positive values. -/
theorem buildPurchaseUnfixEntries_value_pos (totals : Totals) (mtid : ℕ) (party : Party)
    (base vn : String) (adm : ℕ) (item : StockItem) :
    ((buildPurchaseUnfixEntries totals mtid party base vn adm item).filterMap id).all
      (fun e => e.value.jgt (.num 0)) = true := by
  simp only [buildPurchaseUnfixEntries, List.filterMap_append, List.all_append,
    Bool.and_eq_true]
  and_intros <;> apply guarded_value_pos

/-- Function `buildPurchaseReturnFixEntries` emits only strictly positive values. -/
theorem buildPurchaseReturnFixEntries_value_pos (totals : Totals) (mtid : ℕ) (party : Party)
    (base vn : String) (adm : ℕ) (item : StockItem) :
    ((buildPurchaseReturnFixEntries totals mtid party base vn adm item).filterMap id).all
      (fun e => e.value.jgt (.num 0)) = true := by
  simp only [buildPurchaseReturnFixEntries, List.filterMap_append, List.all_append,
    Bool.and_eq_true]
  and_intros <;> apply guarded_value_pos

/-- Function `buildPurchaseReturnUnfixEntries` emits only strictly positive values. -/
theorem buildPurchaseReturnUnfixEntries_value_pos (totals : Totals) (mtid : ℕ) (party : Party)
    (base vn : String) (adm : ℕ) (item : StockItem) :
    ((buildPurchaseReturnUnfixEntries totals mtid party base vn adm item).filterMap id).all
      (fun e => e.value.jgt (.num 0)) = true := by
  simp only [buildPurchaseReturnUnfixEntries, List.filterMap_append, List.all_append,
    Bool.and_eq_true]
  and_intros <;> apply guarded_value_pos

/-- Function `buildSaleFixEntries` emits only strictly positive values. -/
theorem buildSaleFixEntries_value_pos (totals : Totals) (mtid : ℕ) (party : Party)
    (base vn : String) (adm : ℕ) (item : StockItem) :
    ((buildSaleFixEntries totals mtid party base vn adm item).filterMap id).all
      (fun e => e.value.jgt (.num 0)) = true := by
  simp only [buildSaleFixEntries, List.filterMap_append, List.all_append,
    Bool.and_eq_true]
  and_intros <;> apply guarded_value_pos

/-- Function `buildSaleUnfixEntries` emits only strictly positive values. -/
theorem buildSaleUnfixEntries_value_pos (totals : Totals) (mtid : ℕ) (party : Party)
    (base vn : String) (adm : ℕ) (item : StockItem) :
    ((buildSaleUnfixEntries totals mtid party base vn adm item).filterMap id).all
      (fun e => e.value.jgt (.num 0)) = true := by
  simp only [buildSaleUnfixEntries, List.filterMap_append, List.all_append,
    Bool.and_eq_true]
  and_intros <;> apply guarded_value_pos

/-- Function `buildSaleReturnFixEntries` emits only strictly positive values. -/
theorem buildSaleReturnFixEntries_value_pos (totals : Totals) (mtid : ℕ) (party : Party)
    (base vn : String) (adm : ℕ) (item : StockItem) :
    ((buildSaleReturnFixEntries totals mtid party base vn adm item).filterMap id).all
      (fun e => e.value.jgt (.num 0)) = true := by
  simp only [buildSaleReturnFixEntries, List.filterMap_append, List.all_append,
    Bool.and_eq_true]
  and_intros <;> apply guarded_value_pos

/-- Function `buildSaleReturnUnfixEntries` emits only strictly positive values. -/
theorem buildSaleReturnUnfixEntries_value_pos (totals : Totals) (mtid : ℕ) (party : Party)
    (base vn : String) (adm : ℕ) (item : StockItem) :
    ((buildSaleReturnUnfixEntries totals mtid party base vn adm item).filterMap id).all
      (fun e => e.value.jgt (.num 0)) = true := by
  simp only [buildSaleReturnUnfixEntries, List.filterMap_append, List.all_append,
    Bool.and_eq_true]
  and_intros <;> apply guarded_value_pos

/-- Lift a per-item bound over the item loop of `buildRegistryEntries`. -/
theorem flatten_filterMap_all (P : RegEntry → Bool) (f : StockItem → List (Option RegEntry))
    (hf : ∀ item, ((f item).filterMap id).all P = true) :
    ∀ items : List StockItem, (((items.map f).flatten).filterMap id).all P = true := by
  intro items
  induction items with
  | nil => rfl
  | cons a l ih =>
    simp only [List.map_cons, List.flatten_cons, List.filterMap_append, List.all_append,
      hf a, ih, Bool.and_self]

/-- The dispatched per-item entry list emits only strictly positive values. -/
theorem dispatched_value_pos (ty : TransactionType) (mode : Mode) (mtid : ℕ)
    (totals : Totals) (party : Party) (base vn : String) (adm : ℕ) (item : StockItem) :
    (((match ty with
      | .purchase => buildPurchaseEntries mode mtid totals party base vn adm item
      | .sale => buildSaleEntries mode mtid totals party base vn adm item
      | .purchaseReturn => buildPurchaseReturnEntries mode mtid totals party base vn adm item
      | .saleReturn => buildSaleReturnEntries mode mtid totals party base vn adm item)).filterMap
        id).all (fun e => e.value.jgt (.num 0)) = true := by
  cases ty with
  | purchase =>
    cases mode with
    | fix =>
      simp only [buildPurchaseEntries]
      exact buildPurchaseFixEntries_value_pos totals mtid party base vn adm item
    | unfix =>
      simp only [buildPurchaseEntries]
      exact buildPurchaseUnfixEntries_value_pos totals mtid party base vn adm item
  | sale =>
    cases mode with
    | fix =>
      simp only [buildSaleEntries]
      exact buildSaleFixEntries_value_pos totals mtid party base vn adm item
    | unfix =>
      simp only [buildSaleEntries]
      exact buildSaleUnfixEntries_value_pos totals mtid party base vn adm item
  | purchaseReturn =>
    cases mode with
    | fix =>
      simp only [buildPurchaseReturnEntries]
      exact buildPurchaseReturnFixEntries_value_pos totals mtid party base vn adm item
    | unfix =>
      simp only [buildPurchaseReturnEntries]
      exact buildPurchaseReturnUnfixEntries_value_pos totals mtid party base vn adm item
  | saleReturn =>
    cases mode with
    | fix =>
      simp only [buildSaleReturnEntries]
      exact buildSaleReturnFixEntries_value_pos totals mtid party base vn adm item
    | unfix =>
      simp only [buildSaleReturnEntries]
      exact buildSaleReturnUnfixEntries_value_pos totals mtid party base vn adm item

/-- C7: each of the 8 posting builders emits a posting only under a
strictly positive magnitude guard, so every entry it produces has
`value > 0`; consequently every Registry entry returned by
`buildRegistryEntries` has `value > 0`, and zero-value components yield no
entry at all. -/
theorem posting_values_strictly_positive :
    (∀ (totals : Totals) (mtid : ℕ) (party : Party) (base vn : String) (adm : ℕ)
        (item : StockItem),
      ((buildPurchaseFixEntries totals mtid party base vn adm item).filterMap id).all
        (fun e => e.value.jgt (.num 0)) = true ∧
      ((buildPurchaseUnfixEntries totals mtid party base vn adm item).filterMap id).all
        (fun e => e.value.jgt (.num 0)) = true ∧
      ((buildPurchaseReturnFixEntries totals mtid party base vn adm item).filterMap id).all
        (fun e => e.value.jgt (.num 0)) = true ∧
      ((buildPurchaseReturnUnfixEntries totals mtid party base vn adm item).filterMap id).all
        (fun e => e.value.jgt (.num 0)) = true ∧
      ((buildSaleFixEntries totals mtid party base vn adm item).filterMap id).all
        (fun e => e.value.jgt (.num 0)) = true ∧
      ((buildSaleUnfixEntries totals mtid party base vn adm item).filterMap id).all
        (fun e => e.value.jgt (.num 0)) = true ∧
      ((buildSaleReturnFixEntries totals mtid party base vn adm item).filterMap id).all
        (fun e => e.value.jgt (.num 0)) = true ∧
      ((buildSaleReturnUnfixEntries totals mtid party base vn adm item).filterMap id).all
        (fun e => e.value.jgt (.num 0)) = true) ∧
    ∀ (tx : MetalTransaction) (party : Party) (adminId : ℕ) (base : String),
      (buildRegistryEntries tx party adminId base).all (fun e => e.value.jgt (.num 0)) = true := by
  constructor
  · intro totals mtid party base vn adm item
    exact ⟨buildPurchaseFixEntries_value_pos totals mtid party base vn adm item,
      buildPurchaseUnfixEntries_value_pos totals mtid party base vn adm item,
      buildPurchaseReturnFixEntries_value_pos totals mtid party base vn adm item,
      buildPurchaseReturnUnfixEntries_value_pos totals mtid party base vn adm item,
      buildSaleFixEntries_value_pos totals mtid party base vn adm item,
      buildSaleUnfixEntries_value_pos totals mtid party base vn adm item,
      buildSaleReturnFixEntries_value_pos totals mtid party base vn adm item,
      buildSaleReturnUnfixEntries_value_pos totals mtid party base vn adm item⟩
  · intro tx party adminId base
    simp only [buildRegistryEntries]
    exact flatten_filterMap_all _ _
      (fun item => dispatched_value_pos tx.transactionType
        (getTransactionMode tx.fixed tx.unfix) tx.id
        (calculateTotals [item] tx.totalAmountSession) party base tx.voucherNumber adminId item)
      tx.stockItems

/-! ## C9: transaction id structure -/

/-- The leg suffixes of the four fix-mode builders, in emission order. -/
def fixSuffixes : List String :=
  ["PARTY-GOLD", "001", "002", "008", "009", "003", "007", "004", "005"]

/-- The leg suffixes of the four unfix-mode builders, in emission order. -/
def unfixSuffixes : List String :=
  ["001", "003", "008", "009", "004", "007", "005", "006"]

/-- All leg suffixes any builder can emit. -/
def legSuffixes : List String :=
  ["PARTY-GOLD", "001", "002", "003", "004", "005", "006", "007", "008", "009"]

/-- The suffixes a builder of the given mode emits. -/
def modeSuffixes : Mode → List String
  | .fix => fixSuffixes
  | .unfix => unfixSuffixes

/-- The full transaction ids formed from a base and a suffix list. -/
def sufIds (base : String) (sufs : List String) : List String :=
  sufs.map (fun s => base ++ "-" ++ s)

/-- A guarded builder segment contributes at most one id, `base ++ "-" ++ suf`. -/
theorem guarded_ids_sublist (base : String) (mtid : ℕ) (suf ty d : String) (p : Option ℕ)
    (ib : Bool) (v c : JNum) (o : EntryOpts) (r : String) (a : ℕ) :
    List.Sublist
      (((if v.jgt (.num 0) then [createRegistryEntry base mtid suf ty d p ib v c o r a]
        else []).filterMap id).map (fun e => e.transactionId))
      [base ++ "-" ++ suf] := by
  by_cases h : v.jgt (.num 0) = true
  · cases v with
    | nan => simp [JNum.jgt] at h
    | num q =>
      have hle : (JNum.num q).jle (.num 0) = false := by
        have hq : 0 < q := by simpa [JNum.jgt] using h
        simp [JNum.jle]
        linarith
      simp [h, createRegistryEntry, hle]
  · simp [h]

/-- Ids of `buildPurchaseFixEntries` are a sublist of the fix-suffix ids. -/
theorem buildPurchaseFixEntries_ids (totals : Totals) (mtid : ℕ) (party : Party)
    (base vn : String) (adm : ℕ) (item : StockItem) :
    List.Sublist
      (((buildPurchaseFixEntries totals mtid party base vn adm item).filterMap id).map
        (fun e => e.transactionId)) (sufIds base fixSuffixes) := by
  have htarget : sufIds base fixSuffixes =
      [base ++ "-" ++ "PARTY-GOLD"] ++ [base ++ "-" ++ "001"] ++ [base ++ "-" ++ "002"] ++
      [base ++ "-" ++ "008"] ++ [base ++ "-" ++ "009"] ++ [base ++ "-" ++ "003"] ++
      [base ++ "-" ++ "007"] ++ [base ++ "-" ++ "004"] ++ [base ++ "-" ++ "005"] := by
    simp [sufIds, fixSuffixes]
  rw [htarget]
  simp only [buildPurchaseFixEntries, List.filterMap_append, List.map_append]
  refine List.Sublist.append (List.Sublist.append (List.Sublist.append (List.Sublist.append
    (List.Sublist.append (List.Sublist.append (List.Sublist.append (List.Sublist.append
    ?_ ?_) ?_) ?_) ?_) ?_) ?_) ?_) ?_ <;> apply guarded_ids_sublist

/-- Ids of `buildPurchaseReturnFixEntries` are a sublist of the fix-suffix ids. -/
theorem buildPurchaseReturnFixEntries_ids (totals : Totals) (mtid : ℕ) (party : Party)
    (base vn : String) (adm : ℕ) (item : StockItem) :
    List.Sublist
      (((buildPurchaseReturnFixEntries totals mtid party base vn adm item).filterMap id).map
        (fun e => e.transactionId)) (sufIds base fixSuffixes) := by
  have htarget : sufIds base fixSuffixes =
      [base ++ "-" ++ "PARTY-GOLD"] ++ [base ++ "-" ++ "001"] ++ [base ++ "-" ++ "002"] ++
      [base ++ "-" ++ "008"] ++ [base ++ "-" ++ "009"] ++ [base ++ "-" ++ "003"] ++
      [base ++ "-" ++ "007"] ++ [base ++ "-" ++ "004"] ++ [base ++ "-" ++ "005"] := by
    simp [sufIds, fixSuffixes]
  rw [htarget]
  simp only [buildPurchaseReturnFixEntries, List.filterMap_append, List.map_append]
  refine List.Sublist.append (List.Sublist.append (List.Sublist.append (List.Sublist.append
    (List.Sublist.append (List.Sublist.append (List.Sublist.append (List.Sublist.append
    ?_ ?_) ?_) ?_) ?_) ?_) ?_) ?_) ?_ <;> apply guarded_ids_sublist

/-- Ids of `buildSaleFixEntries` are a sublist of the fix-suffix ids. -/
theorem buildSaleFixEntries_ids (totals : Totals) (mtid : ℕ) (party : Party)
    (base vn : String) (adm : ℕ) (item : StockItem) :
    List.Sublist
      (((buildSaleFixEntries totals mtid party base vn adm item).filterMap id).map
        (fun e => e.transactionId)) (sufIds base fixSuffixes) := by
  have htarget : sufIds base fixSuffixes =
      [base ++ "-" ++ "PARTY-GOLD"] ++ [base ++ "-" ++ "001"] ++ [base ++ "-" ++ "002"] ++
      [base ++ "-" ++ "008"] ++ [base ++ "-" ++ "009"] ++ [base ++ "-" ++ "003"] ++
      [base ++ "-" ++ "007"] ++ [base ++ "-" ++ "004"] ++ [base ++ "-" ++ "005"] := by
    simp [sufIds, fixSuffixes]
  rw [htarget]
  simp only [buildSaleFixEntries, List.filterMap_append, List.map_append]
  refine List.Sublist.append (List.Sublist.append (List.Sublist.append (List.Sublist.append
    (List.Sublist.append (List.Sublist.append (List.Sublist.append (List.Sublist.append
    ?_ ?_) ?_) ?_) ?_) ?_) ?_) ?_) ?_ <;> apply guarded_ids_sublist

/-- Ids of `buildSaleReturnFixEntries` are a sublist of the fix-suffix ids. -/
theorem buildSaleReturnFixEntries_ids (totals : Totals) (mtid : ℕ) (party : Party)
    (base vn : String) (adm : ℕ) (item : StockItem) :
    List.Sublist
      (((buildSaleReturnFixEntries totals mtid party base vn adm item).filterMap id).map
        (fun e => e.transactionId)) (sufIds base fixSuffixes) := by
  have htarget : sufIds base fixSuffixes =
      [base ++ "-" ++ "PARTY-GOLD"] ++ [base ++ "-" ++ "001"] ++ [base ++ "-" ++ "002"] ++
      [base ++ "-" ++ "008"] ++ [base ++ "-" ++ "009"] ++ [base ++ "-" ++ "003"] ++
      [base ++ "-" ++ "007"] ++ [base ++ "-" ++ "004"] ++ [base ++ "-" ++ "005"] := by
    simp [sufIds, fixSuffixes]
  rw [htarget]
  simp only [buildSaleReturnFixEntries, List.filterMap_append, List.map_append]
  refine List.Sublist.append (List.Sublist.append (List.Sublist.append (List.Sublist.append
    (List.Sublist.append (List.Sublist.append (List.Sublist.append (List.Sublist.append
    ?_ ?_) ?_) ?_) ?_) ?_) ?_) ?_) ?_ <;> apply guarded_ids_sublist

/-- Ids of `buildPurchaseUnfixEntries` are a sublist of the unfix-suffix ids. -/
theorem buildPurchaseUnfixEntries_ids (totals : Totals) (mtid : ℕ) (party : Party)
    (base vn : String) (adm : ℕ) (item : StockItem) :
    List.Sublist
      (((buildPurchaseUnfixEntries totals mtid party base vn adm item).filterMap id).map
        (fun e => e.transactionId)) (sufIds base unfixSuffixes) := by
  have htarget : sufIds base unfixSuffixes =
      [base ++ "-" ++ "001"] ++ [base ++ "-" ++ "003"] ++ [base ++ "-" ++ "008"] ++
      [base ++ "-" ++ "009"] ++ [base ++ "-" ++ "004"] ++ [base ++ "-" ++ "007"] ++
      [base ++ "-" ++ "005"] ++ [base ++ "-" ++ "006"] := by
    simp [sufIds, unfixSuffixes]
  rw [htarget]
  simp only [buildPurchaseUnfixEntries, List.filterMap_append, List.map_append]
  refine List.Sublist.append (List.Sublist.append (List.Sublist.append (List.Sublist.append
    (List.Sublist.append (List.Sublist.append (List.Sublist.append
    ?_ ?_) ?_) ?_) ?_) ?_) ?_) ?_ <;> apply guarded_ids_sublist

/-- Ids of `buildPurchaseReturnUnfixEntries` are a sublist of the unfix-suffix ids. -/
theorem buildPurchaseReturnUnfixEntries_ids (totals : Totals) (mtid : ℕ) (party : Party)
    (base vn : String) (adm : ℕ) (item : StockItem) :
    List.Sublist
      (((buildPurchaseReturnUnfixEntries totals mtid party base vn adm item).filterMap id).map
        (fun e => e.transactionId)) (sufIds base unfixSuffixes) := by
  have htarget : sufIds base unfixSuffixes =
      [base ++ "-" ++ "001"] ++ [base ++ "-" ++ "003"] ++ [base ++ "-" ++ "008"] ++
      [base ++ "-" ++ "009"] ++ [base ++ "-" ++ "004"] ++ [base ++ "-" ++ "007"] ++
      [base ++ "-" ++ "005"] ++ [base ++ "-" ++ "006"] := by
    simp [sufIds, unfixSuffixes]
  rw [htarget]
  simp only [buildPurchaseReturnUnfixEntries, List.filterMap_append, List.map_append]
  refine List.Sublist.append (List.Sublist.append (List.Sublist.append (List.Sublist.append
    (List.Sublist.append (List.Sublist.append (List.Sublist.append
    ?_ ?_) ?_) ?_) ?_) ?_) ?_) ?_ <;> apply guarded_ids_sublist

/-- Ids of `buildSaleUnfixEntries` are a sublist of the unfix-suffix ids. -/
theorem buildSaleUnfixEntries_ids (totals : Totals) (mtid : ℕ) (party : Party)
    (base vn : String) (adm : ℕ) (item : StockItem) :
    List.Sublist
      (((buildSaleUnfixEntries totals mtid party base vn adm item).filterMap id).map
        (fun e => e.transactionId)) (sufIds base unfixSuffixes) := by
  have htarget : sufIds base unfixSuffixes =
      [base ++ "-" ++ "001"] ++ [base ++ "-" ++ "003"] ++ [base ++ "-" ++ "008"] ++
      [base ++ "-" ++ "009"] ++ [base ++ "-" ++ "004"] ++ [base ++ "-" ++ "007"] ++
      [base ++ "-" ++ "005"] ++ [base ++ "-" ++ "006"] := by
    simp [sufIds, unfixSuffixes]
  rw [htarget]
  simp only [buildSaleUnfixEntries, List.filterMap_append, List.map_append]
  refine List.Sublist.append (List.Sublist.append (List.Sublist.append (List.Sublist.append
    (List.Sublist.append (List.Sublist.append (List.Sublist.append
    ?_ ?_) ?_) ?_) ?_) ?_) ?_) ?_ <;> apply guarded_ids_sublist

/-- Ids of `buildSaleReturnUnfixEntries` are a sublist of the unfix-suffix ids. -/
theorem buildSaleReturnUnfixEntries_ids (totals : Totals) (mtid : ℕ) (party : Party)
    (base vn : String) (adm : ℕ) (item : StockItem) :
    List.Sublist
      (((buildSaleReturnUnfixEntries totals mtid party base vn adm item).filterMap id).map
        (fun e => e.transactionId)) (sufIds base unfixSuffixes) := by
  have htarget : sufIds base unfixSuffixes =
      [base ++ "-" ++ "001"] ++ [base ++ "-" ++ "003"] ++ [base ++ "-" ++ "008"] ++
      [base ++ "-" ++ "009"] ++ [base ++ "-" ++ "004"] ++ [base ++ "-" ++ "007"] ++
      [base ++ "-" ++ "005"] ++ [base ++ "-" ++ "006"] := by
    simp [sufIds, unfixSuffixes]
  rw [htarget]
  simp only [buildSaleReturnUnfixEntries, List.filterMap_append, List.map_append]
  refine List.Sublist.append (List.Sublist.append (List.Sublist.append (List.Sublist.append
    (List.Sublist.append (List.Sublist.append (List.Sublist.append
    ?_ ?_) ?_) ?_) ?_) ?_) ?_) ?_ <;> apply guarded_ids_sublist

/-- The ids of a dispatched per-item entry list are a sublist of the
suffixed ids of the resolved mode. -/
theorem dispatched_ids (ty : TransactionType) (mode : Mode) (mtid : ℕ)
    (totals : Totals) (party : Party) (base vn : String) (adm : ℕ) (item : StockItem) :
    List.Sublist
      (((match ty with
        | .purchase => buildPurchaseEntries mode mtid totals party base vn adm item
        | .sale => buildSaleEntries mode mtid totals party base vn adm item
        | .purchaseReturn => buildPurchaseReturnEntries mode mtid totals party base vn adm item
        | .saleReturn => buildSaleReturnEntries mode mtid totals party base vn adm item).filterMap
          id).map (fun e : RegEntry => e.transactionId))
      (sufIds base (modeSuffixes mode)) := by
  cases ty with
  | purchase =>
    cases mode with
    | fix =>
      simp only [buildPurchaseEntries, modeSuffixes]
      exact buildPurchaseFixEntries_ids totals mtid party base vn adm item
    | unfix =>
      simp only [buildPurchaseEntries, modeSuffixes]
      exact buildPurchaseUnfixEntries_ids totals mtid party base vn adm item
  | sale =>
    cases mode with
    | fix =>
      simp only [buildSaleEntries, modeSuffixes]
      exact buildSaleFixEntries_ids totals mtid party base vn adm item
    | unfix =>
      simp only [buildSaleEntries, modeSuffixes]
      exact buildSaleUnfixEntries_ids totals mtid party base vn adm item
  | purchaseReturn =>
    cases mode with
    | fix =>
      simp only [buildPurchaseReturnEntries, modeSuffixes]
      exact buildPurchaseReturnFixEntries_ids totals mtid party base vn adm item
    | unfix =>
      simp only [buildPurchaseReturnEntries, modeSuffixes]
      exact buildPurchaseReturnUnfixEntries_ids totals mtid party base vn adm item
  | saleReturn =>
    cases mode with
    | fix =>
      simp only [buildSaleReturnEntries, modeSuffixes]
      exact buildSaleReturnFixEntries_ids totals mtid party base vn adm item
    | unfix =>
      simp only [buildSaleReturnEntries, modeSuffixes]
      exact buildSaleReturnUnfixEntries_ids totals mtid party base vn adm item

/-- Suffixing a fixed base is injective. -/
theorem suffixing_injective (base : String) :
    Function.Injective (fun s : String => base ++ "-" ++ s) := by
  intro x y hxy
  have hd := congrArg String.data hxy
  simp [String.data_append] at hd
  exact String.ext hd

/-- Suffixed ids of a duplicate-free suffix list are duplicate-free. -/
theorem sufIds_nodup (base : String) {l : List String} (h : l.Nodup) :
    (sufIds base l).Nodup :=
  h.map (suffixing_injective base)

/-- Every entry of a dispatched per-item list carries an id of the form
`base ++ "-" ++ suf` with `suf` one of the known leg suffixes. -/
theorem dispatched_ids_all_legal (ty : TransactionType) (mode : Mode) (mtid : ℕ)
    (totals : Totals) (party : Party) (base vn : String) (adm : ℕ) (item : StockItem) :
    ((match ty with
      | .purchase => buildPurchaseEntries mode mtid totals party base vn adm item
      | .sale => buildSaleEntries mode mtid totals party base vn adm item
      | .purchaseReturn => buildPurchaseReturnEntries mode mtid totals party base vn adm item
      | .saleReturn => buildSaleReturnEntries mode mtid totals party base vn adm item).filterMap
        id).all
      (fun e => legSuffixes.any (fun suf => e.transactionId == base ++ "-" ++ suf)) = true := by
  rw [List.all_eq_true]
  intro e he
  have hid : e.transactionId ∈ sufIds base (modeSuffixes mode) :=
    (dispatched_ids ty mode mtid totals party base vn adm item).subset
      (List.mem_map_of_mem _ he)
  obtain ⟨suf, hsuf, heq⟩ := List.mem_map.mp hid
  rw [List.any_eq_true]
  refine ⟨suf, ?_, ?_⟩
  · have hfix : ∀ s ∈ fixSuffixes, s ∈ legSuffixes := by decide
    have hunfix : ∀ s ∈ unfixSuffixes, s ∈ legSuffixes := by decide
    cases mode with
    | fix => exact hfix suf hsuf
    | unfix => exact hunfix suf hsuf
  · rw [beq_iff_eq]
    exact heq.symm

/-- The party of the C9 counterexample. -/
def party9 : Party := { id := 9, accountCode := "P9", customerName := "Party Nine" }

/-- The repeated stock item of the C9 counterexample. -/
def item9 : StockItem :=
  { pureWeight := some (.num 1), purity := some (.num 1), grossWeight := some (.num 1) }

/-- A two-item unfix purchase. -/
def tx9 : MetalTransaction :=
  { id := 2, transactionType := .purchase, unfix := true,
    stockItems := [item9, item9], voucherNumber := "V9" }

set_option maxHeartbeats 2000000 in
/-- C9 counterexample: with two stock items the same leg suffixes are
reused under the one shared base, so the emitted `transactionId` values
are not pairwise distinct. -/
theorem multi_item_duplicate_transaction_ids :
    ¬ (((buildRegistryEntries tx9 party9 7 "TXN-2025-123").map
        (fun e => e.transactionId)).Nodup) := by
  have hlist : (buildRegistryEntries tx9 party9 7 "TXN-2025-123").map
      (fun e => e.transactionId) =
      ["TXN-2025-123" ++ "-" ++ "001", "TXN-2025-123" ++ "-" ++ "005",
       "TXN-2025-123" ++ "-" ++ "006", "TXN-2025-123" ++ "-" ++ "001",
       "TXN-2025-123" ++ "-" ++ "005", "TXN-2025-123" ++ "-" ++ "006"] := by
    norm_num [buildRegistryEntries, buildPurchaseEntries, buildPurchaseUnfixEntries,
      getTransactionMode, calculateTotals, calculateTotalsStep, createRegistryEntry,
      jsOr, JNum.truthy, JNum.add, JNum.addOpt, JNum.jgt, JNum.jlt, JNum.jle, JNum.jabs,
      JNum.orJS, tx9, item9, party9, List.filterMap_cons, id_eq]
  rw [hlist]
  decide

/-- C9 (amended): the base id has the form `TXN-<year>-<n>` with `n` drawn
in 100–999 and is generated once per invocation; every posting's
`transactionId` is the shared base suffixed with one of the leg suffixes;
and the ids are pairwise distinct whenever the transaction holds a single
stock item (with several stock items the same suffixes repeat under the
shared base, so distinctness fails, see the counterexample). -/
theorem transaction_id_structure :
    (∀ (year : ℕ) (r : ℚ), 0 ≤ r → r < 1 →
      100 ≤ randomNum900 r ∧ randomNum900 r ≤ 999 ∧
      generateTransactionId year (randomNum900 r) =
        "TXN-" ++ toString year ++ "-" ++ toString (randomNum900 r)) ∧
    (∀ (tx : MetalTransaction) (party : Party) (adm : ℕ) (base : String),
      (buildRegistryEntries tx party adm base).all
        (fun e => legSuffixes.any (fun suf => e.transactionId == base ++ "-" ++ suf)) = true) ∧
    (∀ (mtid : ℕ) (ty : TransactionType) (fixedFlag unfixFlag : Bool) (item : StockItem)
        (sess : TotalSession) (vn : String) (party : Party) (adm : ℕ) (base : String),
      (((buildRegistryEntries
          { id := mtid, transactionType := ty, fixed := fixedFlag, unfix := unfixFlag,
            stockItems := [item], totalAmountSession := sess, voucherNumber := vn }
          party adm base).map (fun e => e.transactionId))).Nodup) := by
  refine ⟨?_, ?_, ?_⟩
  · intro year r h0 h1
    have hmul : (0:ℚ) ≤ r * 900 := by positivity
    have hlow : (0:ℤ) ≤ ⌊r * 900⌋ := Int.floor_nonneg.mpr hmul
    have hup : ⌊r * 900⌋ < 900 := by
      rw [Int.floor_lt]
      push_cast
      nlinarith
    refine ⟨?_, ?_, rfl⟩
    · unfold randomNum900
      omega
    · unfold randomNum900
      omega
  · intro tx party adm base
    simp only [buildRegistryEntries]
    exact flatten_filterMap_all _ _
      (fun item => dispatched_ids_all_legal tx.transactionType
        (getTransactionMode tx.fixed tx.unfix) tx.id
        (calculateTotals [item] tx.totalAmountSession) party base tx.voucherNumber adm item)
      tx.stockItems
  · intro mtid ty fixedFlag unfixFlag item sess vn party adm base
    simp only [buildRegistryEntries, List.map_cons, List.map_nil, List.flatten_cons,
      List.flatten_nil, List.append_nil]
    cases hmode : getTransactionMode fixedFlag unfixFlag with
    | fix =>
      exact (sufIds_nodup base (by decide : fixSuffixes.Nodup)).sublist
        (dispatched_ids ty .fix mtid (calculateTotals [item] sess) party base vn adm item)
    | unfix =>
      exact (sufIds_nodup base (by decide : unfixSuffixes.Nodup)).sublist
        (dispatched_ids ty .unfix mtid (calculateTotals [item] sess) party base vn adm item)

/-- Witness for the amended C9 theorem at `year = 2025`, `r = 1/2`. -/
theorem transaction_id_structure_witness :
    100 ≤ randomNum900 (1 / 2) ∧ randomNum900 (1 / 2) ≤ 999 ∧
    generateTransactionId 2025 (randomNum900 (1 / 2)) =
      "TXN-" ++ toString 2025 ++ "-" ++ toString (randomNum900 (1 / 2)) :=
  transaction_id_structure.1 2025 (1 / 2) (by norm_num) (by norm_num)
